import Mathlib

/-!
# Verification of the battle effect-resolution engine

A shallow embedding of the battle core (`battleCore.js`) and the item-effect
tables (`itemEffects.js`) of the repository, followed by theorems settling the
frozen claims about the specification.

Modelling conventions:
* JavaScript numbers are modelled as `ℚ`.  `Math.round x` is `⌊x + 1/2⌋`,
  `Math.floor` is `⌊x⌋`, `Math.sign` is `jsSign`.
* JavaScript objects whose fields may be `undefined` carry `Option` fields.
  A JS truthiness test `if (x)` on a number is `x ≠ 0` (on an optional number:
  present and non-zero); on a string it is non-emptiness; object values are
  always truthy.
* Dynamic string-keyed stat records (`battleStats`, `statModifications`,
  `permanentModifications`) are association lists `List (String × ℚ)` in
  insertion order, mirroring JS object key order.  `stat.includes(s)` is
  substring containment.
* `Math.sin(turnsPassed * Math.PI / 3)` (echo oscillation) is an irrational
  float computation; it is abstracted as a parameter `jsSin : ℚ → ℚ`
  (`jsSin t` stands for `Math.sin(t * π / 3)`).  No claim depends on its value.
* `Math.random()` draws and `Date.now()`-based ids are passed in explicitly
  as parameters, reflecting the single shared inline PRNG of the source.
* The external collaborators `calculateDerivedStats`, `calculateDamage` and
  `calculateComboBonus` (declared out of scope by the spec, not present under
  `src/`) are universally quantified function parameters.
* Display-only string fields (`name`, `icon`, `description`, `powerLevel`,
  battle-log lines, `console.log` calls) are omitted: they feed no control
  flow and no claim mentions them.
-/

/-- JavaScript `Math.round`: round half up, `Math.round(-14.5) = -14`. -/
def jsRound (x : ℚ) : ℚ := (⌊x + 1/2⌋ : ℤ)

/-- JavaScript `Math.floor`. -/
def jsFloor (x : ℚ) : ℚ := (⌊x⌋ : ℤ)

/-- JavaScript `Math.sign`. -/
def jsSign (x : ℚ) : ℚ := if x < 0 then -1 else if x = 0 then 0 else 1

/-- `x || d` for an optional JS number (`undefined` and `0` are falsy). -/
def orNum (o : Option ℚ) (d : ℚ) : ℚ :=
  match o with
  | some v => if v = 0 then d else v
  | none => d

/-- `x || 0` for an optional JS number. -/
def orZero (o : Option ℚ) : ℚ := orNum o 0

/-- `s || d` for an optional JS string (`undefined` and `""` are falsy). -/
def orStr (o : Option String) (d : String) : String :=
  match o with
  | some s => if s = "" then d else s
  | none => d

/-- JS truthiness of an optional string. -/
def strTruthy (o : Option String) : Bool :=
  match o with
  | some s => s ≠ ""
  | none => false

/-- `a || b` on two optional JS numbers (used for `maxHealth || health`). -/
def orOptNum (a b : Option ℚ) : Option ℚ :=
  match a with
  | some v => if v = 0 then b else some v
  | none => b

/-- Structural prefix test on character lists (kernel-computable). -/
def charsLeadWith : List Char → List Char → Bool
  | [], _ => true
  | _ :: _, [] => false
  | c :: cs, d :: ds => (c = d) && charsLeadWith cs ds

/-- Structural substring test on character lists (kernel-computable). -/
def charsContain (pat : List Char) : List Char → Bool
  | [] => charsLeadWith pat []
  | d :: ds => charsLeadWith pat (d :: ds) || charsContain pat ds

/-- `s.includes(pat)`: JS substring containment. -/
def strIncludes (s pat : String) : Bool := charsContain pat.data s.data

/-- A JS object with numeric values: an association list in key-insertion
order.  Keys are unique in every map built by the engine. -/
abbrev StatMap := List (String × ℚ)

/-- `m[k]`, `undefined` as `none`. -/
def statLookup (m : StatMap) (k : String) : Option ℚ :=
  (m.find? (fun p => p.1 = k)).map (fun p => p.2)

/-- `m[k] = v`: overwrite an existing key in place, else append (JS object
assignment preserves first-insertion key order). -/
def statSet (m : StatMap) (k : String) (v : ℚ) : StatMap :=
  if (m.find? (fun p => p.1 = k)).isSome then
    m.map (fun p => if p.1 = k then (k, v) else p)
  else m ++ [(k, v)]

/-- `m[k] = (m[k] || 0) + v` (accumulator update in `currentStatMods`). -/
def statAdd (m : StatMap) (k : String) (v : ℚ) : StatMap :=
  statSet m k (orZero (statLookup m k) + v)

/-- `if (m[k] !== undefined) m[k] = f(m[k])`: update only a present key. -/
def statUpdate (m : StatMap) (k : String) (f : ℚ → ℚ) : StatMap :=
  if (m.find? (fun p => p.1 = k)).isSome then
    m.map (fun p => if p.1 = k then (k, f p.2) else p)
  else m

/-- `chargeEffect` record: `{targetStat, perTurnBonus, maxTurns, finalBurst}`. -/
structure ChargeEffect where
  targetStat : String
  perTurnBonus : ℚ
  maxTurns : ℚ
  finalBurst : ℚ
  deriving Repr, DecidableEq

/-- `maxTurns || 3` (all table entries use 3; `0` is falsy in JS). -/
def maxTurnsOr3 (m : ℚ) : ℚ := if m = 0 then 3 else m

/-- `prepareEffect` record of charge spells (display `name` omitted). -/
structure PrepareEffect where
  turns : ℚ
  damage : ℚ
  areaEffect : Bool
  stunChance : ℚ
  deriving Repr, DecidableEq

/-- An active, timed effect attached to a creature.  Fields mirror the JS
effect objects; display-only fields are omitted. -/
structure Effect where
  id : ℚ
  /-- the JS `type` field (`stat`, `charge`, `debuff`, `legendary_blessing`, …) -/
  etype : String
  duration : ℚ
  statModifications : StatMap
  healthOverTime : Option ℚ
  chargeEffect : Option ChargeEffect
  prepareEffect : Option PrepareEffect
  /-- the JS `effectType` field (the tool/spell effect tag `Surge`…`Charge`) -/
  effectType : Option String
  startTurn : Option ℚ
  deriving Repr, DecidableEq

/-- A battle participant.  `activeEffects` may contain `none` entries (the
source guards `if (!effect) return null`).  Display fields omitted. -/
structure Creature where
  id : ℚ
  rarity : String
  specialty_stats : List String
  /-- base stats (`creature.stats`), `undefined` when malformed -/
  stats : Option StatMap
  battleStats : Option StatMap
  currentHealth : ℚ
  activeEffects : List (Option Effect)
  isDefending : Bool
  nextAttackBonus : Option ℚ
  permanentModifications : Option StatMap
  combination_level : Option ℚ
  currentTurn : Option ℚ
  /-- top-level `maxHealth` / `health` fields used by the `processAttack` clones -/
  maxHealth : Option ℚ
  health : Option ℚ
  form : Option ℚ
  deriving Repr, DecidableEq

/-- `processTimedEffect(effect, currentTurn, startTurn)` from
`itemEffects.js`: recompute the time-dependent fields of a `Charge` or `Echo`
effect from elapsed turns; all other effects pass through unchanged. -/
def processTimedEffect (jsSin : ℚ → ℚ) (effect : Effect)
    (currentTurn startTurn : ℚ) : Effect :=
  let turnsPassed := currentTurn - startTurn
  let e1 :=
    match effect.chargeEffect with
    | some ce =>
      if effect.effectType = some "Charge" then
        let chargeProgress := min (turnsPassed / maxTurnsOr3 ce.maxTurns) 1
        if chargeProgress < 1 then
          { effect with statModifications :=
              (statSet effect.statModifications ce.targetStat
                (jsFloor (ce.perTurnBonus * chargeProgress))) }
        else effect
      else effect
    | none => effect
  if effect.effectType = some "Echo" ∧ orZero effect.healthOverTime ≠ 0 then
    let echoIntensity := 4/5 + jsSin turnsPassed * (3/10)
    { e1 with healthOverTime := some (jsRound
        (orZero effect.healthOverTime * echoIntensity)) }
  else e1

/-- Outcome of the special charge-type block in `applyOngoingEffects`
(lines 305–327 of `battleCore.js`). -/
inductive ChargeOutcome where
  | burst (b : ℚ)
  | increment (target : String) (inc : ℚ)
  | nothing
  deriving Repr, DecidableEq

/-- The charge-type test of `applyOngoingEffects`: at full progress a truthy
`finalBurst` fires; otherwise a positive incremental bonus accrues to a
truthy `targetStat`. -/
def chargeCheck (pe : Effect) (currentTurn : ℚ) : ChargeOutcome :=
  match pe.chargeEffect with
  | some ce =>
    if pe.etype = "charge" then
      let turnsActive := currentTurn - orZero pe.startTurn
      let chargeProgress := min (turnsActive / maxTurnsOr3 ce.maxTurns) 1
      if 1 ≤ chargeProgress ∧ ce.finalBurst ≠ 0 then .burst ce.finalBurst
      else
        let incrementalBonus := jsFloor (ce.perTurnBonus * chargeProgress)
        if ce.targetStat ≠ "" ∧ 0 < incrementalBonus then
          .increment ce.targetStat incrementalBonus
        else .nothing
    else .nothing
  | none => .nothing

/-- The effect element produced by one pass of the `.map` body of
`applyOngoingEffects`, before the expiry filter: `null` stays `null`; a fully
charged effect is returned with `duration: 0`; every other effect is the
processed effect with its duration decremented. -/
def effResult (jsSin : ℚ → ℚ) (currentTurn : ℚ) (oe : Option Effect) :
    Option Effect :=
  match oe with
  | none => none
  | some effect =>
    let pe := processTimedEffect jsSin effect currentTurn (orZero effect.startTurn)
    match chargeCheck pe currentTurn with
    | .burst _ => some { pe with duration := 0 }
    | _ => some { pe with duration := pe.duration - 1 }

/-- The expiry filter of `applyOngoingEffects`:
`.filter(effect => effect && effect.duration > 0)`. -/
def keepEffect (oe : Option Effect) : Bool :=
  match oe with
  | none => false
  | some e => 0 < e.duration

/-- The mutable accumulators of the `.map` body of `applyOngoingEffects`
(`currentStatMods`, `statsModified`, and the in-place health /
`nextAttackBonus` mutations of `updatedCreature`). -/
structure TickState where
  statMods : StatMap
  statsModified : Bool
  currentHealth : ℚ
  nextAttackBonus : Option ℚ
  deriving Repr, DecidableEq

/-- Difficulty scaling of a health-over-time change (lines 274–278). -/
def hotDifficultyScale (difficulty : String) (h : ℚ) : ℚ :=
  if difficulty = "hard" then jsRound (h * (23/20))
  else if difficulty = "expert" then jsRound (h * (5/4))
  else h

/-- Rarity scaling of a health-over-time change (lines 280–285). -/
def hotRarityScale (rarity : String) (h : ℚ) : ℚ :=
  if rarity = "Legendary" then jsRound (h * (6/5))
  else if rarity = "Epic" then jsRound (h * (23/20))
  else if rarity = "Rare" then jsRound (h * (11/10))
  else h

/-- One pass of the state accumulation of the `.map` body of
`applyOngoingEffects`: stat modifications are summed into `currentStatMods`,
health-over-time is scaled and clamped into `[0, battleStats.maxHealth]`, and
a fully charged effect adds its burst to `nextAttackBonus`.
If `battleStats.maxHealth` is absent the JS clamp would produce `NaN`; that
degenerate shape is left as an unchanged health (no claim exercises it). -/
def tickStateStep (jsSin : ℚ → ℚ) (difficulty rarity : String)
    (maxHealthOpt : Option ℚ) (currentTurn : ℚ)
    (st : TickState) (oe : Option Effect) : TickState :=
  match oe with
  | none => st
  | some effect =>
    let pe := processTimedEffect jsSin effect currentTurn (orZero effect.startTurn)
    let statMods1 := pe.statModifications.foldl
      (fun m sv => statAdd m sv.1 sv.2) st.statMods
    let modified1 := st.statsModified || !pe.statModifications.isEmpty
    let health1 :=
      if orZero pe.healthOverTime ≠ 0 then
        let healthChange :=
          hotRarityScale rarity (hotDifficultyScale difficulty (orZero pe.healthOverTime))
        match maxHealthOpt with
        | some mh => min mh (max 0 (st.currentHealth + healthChange))
        | none => st.currentHealth
      else st.currentHealth
    match chargeCheck pe currentTurn with
    | .burst b =>
      { statMods := statMods1, statsModified := modified1,
        currentHealth := health1,
        nextAttackBonus := some (orZero st.nextAttackBonus + b) }
    | .increment target inc =>
      { statMods := statAdd statMods1 target inc, statsModified := true,
        currentHealth := health1, nextAttackBonus := st.nextAttackBonus }
    | .nothing =>
      { statMods := statMods1, statsModified := modified1,
        currentHealth := health1, nextAttackBonus := st.nextAttackBonus }

/-- `applyOngoingEffects` on one creature (the `.map` body of lines 242–357).
The JS loop is a single pass whose per-effect list output depends only on the
effect and the turn; its mutable accumulators never feed back into the effect
outputs, so the pass is rendered as the elementwise `effResult` map for the
effect list plus a `tickStateStep` fold for the accumulators.  After the loop,
`statsModified` triggers the inline battle-stat rebuild from the external
`calculateDerivedStats` (`cds`) plus the accumulated modifications, clamped at
0 — note the source does not re-clamp `currentHealth` there — and the
`isDefending` flag is cleared. -/
def applyOngoingEffectsCreature (jsSin : ℚ → ℚ) (cds : Creature → StatMap)
    (difficulty : String) (currentTurn : ℚ) (creature : Creature) : Creature :=
  match creature.battleStats with
  | none => creature
  | some bs =>
    let st := creature.activeEffects.foldl
      (tickStateStep jsSin difficulty creature.rarity
        (statLookup bs "maxHealth") currentTurn)
      { statMods := [], statsModified := false,
        currentHealth := creature.currentHealth,
        nextAttackBonus := creature.nextAttackBonus }
    let newEffects :=
      (creature.activeEffects.map (effResult jsSin currentTurn)).filter keepEffect
    let c1 := { creature with
      activeEffects := newEffects,
      currentHealth := st.currentHealth,
      nextAttackBonus := st.nextAttackBonus }
    let c2 :=
      if st.statsModified then
        let base := cds c1
        { c1 with battleStats := some (st.statMods.foldl
            (fun m sv => statUpdate m sv.1 (fun old => max 0 (old + sv.2))) base) }
      else c1
    { c2 with isDefending := false }

/-- `applyOngoingEffects(creatures, difficulty, currentTurn)`: the per-turn
ongoing-effects tick over a field.  Creatures without `battleStats` are
returned untouched. -/
def applyOngoingEffects (jsSin : ℚ → ℚ) (cds : Creature → StatMap)
    (creatures : List Creature) (difficulty : String) (currentTurn : ℚ) :
    List Creature :=
  creatures.map (applyOngoingEffectsCreature jsSin cds difficulty currentTurn)

/-- One `statModifications` entry applied inside `recalculateDerivedStats`
(lines 53–64): add onto a present stat, then clamp by stat family —
attack/defense floor 1, `maxHealth` floor 10, `initiative` and chance stats
floor 0. -/
def applyEffectMod (m : StatMap) (k : String) (v : ℚ) : StatMap :=
  statUpdate m k (fun old =>
    let x := old + v
    if strIncludes k "Attack" ∨ strIncludes k "Defense" then max 1 x
    else if k = "maxHealth" then max 10 x
    else if k = "initiative" ∨ strIncludes k "Chance" then max 0 x
    else x)

/-- `recalculateDerivedStats(creature)` (lines 37–97): rebuild battle stats
from the external base derivation (`cds`), active-effect modifications
(clamped per family), permanent modifications (unclamped), and the
combination-level multiplier; finally clamp `currentHealth` down to the new
`maxHealth`.  Returns the new stat map together with the (possibly clamped)
`currentHealth`, reflecting the in-place health mutation of the source. -/
def recalculateDerivedStats (cds : Creature → StatMap) (creature : Creature) :
    StatMap × ℚ :=
  match creature.stats with
  | none => (creature.battleStats.getD [], creature.currentHealth)
  | some _ =>
    let freshDerivedStats := cds creature
    let m1 := creature.activeEffects.foldl (fun m oe =>
      match oe with
      | none => m
      | some e => e.statModifications.foldl
          (fun m sv => applyEffectMod m sv.1 sv.2) m) freshDerivedStats
    let m2 :=
      match creature.permanentModifications with
      | none => m1
      | some pm => pm.foldl (fun m sv => statUpdate m sv.1 (fun old => old + sv.2)) m1
    let m3 :=
      match creature.combination_level with
      | some lvl =>
        if 0 < lvl then
          let combinationMultiplier := 1 + lvl * (2/25)
          m2.map (fun sv =>
            if ¬ strIncludes sv.1 "Chance" ∧ sv.1 ≠ "energyCost" then
              (sv.1, jsRound (sv.2 * combinationMultiplier))
            else sv)
        else m2
      | none => m2
    let newHealth :=
      match statLookup m3 "maxHealth" with
      | some mh =>
        if creature.currentHealth ≠ 0 ∧ mh < creature.currentHealth then mh
        else creature.currentHealth
      | none => creature.currentHealth
    (m3, newHealth)

/-- `creature.battleStats = recalculateDerivedStats(creature)` together with
the in-place `currentHealth` clamp the call performs. -/
def recalcCreature (cds : Creature → StatMap) (c : Creature) : Creature :=
  let r := recalculateDerivedStats cds c
  { c with battleStats := some r.1, currentHealth := r.2 }

/-- The `legendary_blessing` ("Final Gift") death effect (lines 378–390). -/
def legendaryBlessing (id startTurn : ℚ) : Effect :=
  { id := id, etype := "legendary_blessing", duration := 5,
    statModifications := [("physicalAttack", 2), ("magicalAttack", 2)],
    healthOverTime := none, chargeEffect := none, prepareEffect := none,
    effectType := none, startTurn := some startTurn }

/-- The `energy_burst` ("Energy Release") death effect (lines 397–408). -/
def energyRelease (id startTurn : ℚ) : Effect :=
  { id := id, etype := "energy_burst", duration := 2,
    statModifications := [("energyCost", -1)],
    healthOverTime := none, chargeEffect := none, prepareEffect := none,
    effectType := none, startTurn := some startTurn }

/-- The `epic_blessing` ("Epic Essence") death effect (lines 415–427). -/
def epicEssence (id startTurn : ℚ) : Effect :=
  { id := id, etype := "epic_blessing", duration := 3,
    statModifications := [("physicalAttack", 1), ("magicalAttack", 1)],
    healthOverTime := none, chargeEffect := none, prepareEffect := none,
    effectType := none, startTurn := some startTurn }

/-- The `debuff` ("Guilty Conscience") revenge effect (lines 435–447). -/
def guiltyConscience (id startTurn : ℚ) : Effect :=
  { id := id, etype := "debuff", duration := 2,
    statModifications := [("initiative", -2), ("dodgeChance", -1)],
    healthOverTime := none, chargeEffect := none, prepareEffect := none,
    effectType := none, startTurn := some startTurn }

/-- Append a death effect (built from a fresh id and the ally's
`currentTurn || 0`) to every creature of a list, threading the id counter.
Models the `survivingCreatures.forEach(ally => ...)` loops; ids come from
`Date.now() + Math.random()`, abstracted as the injective-enough `mkId`. -/
def pushDeathEffect (mkId : ℕ → ℚ) (mkEff : ℚ → ℚ → Effect)
    (cs : List Creature) (n0 : ℕ) : List Creature × ℕ :=
  cs.foldl (fun acc c =>
    (acc.1 ++ [{ c with activeEffects := c.activeEffects ++
        [some (mkEff (mkId acc.2) (orZero c.currentTurn))] }], acc.2 + 1))
    ([], n0)

/-- The direct stat mutation of the legendary branch:
`ally.battleStats.physicalAttack += 2; ally.battleStats.magicalAttack += 2`.
A creature without `battleStats` would make the JS throw; such a shape is
left unchanged here (no claim exercises it). -/
def bumpAttack (c : Creature) : Creature :=
  match c.battleStats with
  | some bs => { c with battleStats := (some
      (statUpdate (statUpdate bs "physicalAttack" (fun v => v + 2))
        "magicalAttack" (fun v => v + 2))) }
  | none => c

/-- `processDefeatedCreatures(creatures, opposingCreatures)` (lines 361–454):
partition by `currentHealth > 0` in field order; for each defeated creature
run the death-trigger chain — Legendary blessing, **else** energy-specialty
burst, **else** Epic essence — over the survivors accumulated *so far*, then
(independently) the revenge debuff over the whole opposing field when the
defeated creature was Legendary or Epic.  The JS mutates `opposingCreatures`
in place; the updated opposing field is returned as the second component. -/
def processDefeatedCreatures (mkId : ℕ → ℚ)
    (creatures opposingCreatures : List Creature) :
    List Creature × List Creature :=
  let r := creatures.foldl (fun (acc : List Creature × List Creature × ℕ) creature =>
    let surviving := acc.1
    let opposing := acc.2.1
    let n := acc.2.2
    if 0 < creature.currentHealth then
      (surviving ++ [creature], opposing, n)
    else
      let (surviving1, n1) :=
        if creature.rarity = "Legendary" then
          let p := pushDeathEffect mkId legendaryBlessing surviving n
          (p.1.map bumpAttack, p.2)
        else if creature.specialty_stats.contains "energy" then
          pushDeathEffect mkId energyRelease surviving n
        else if creature.rarity = "Epic" then
          pushDeathEffect mkId epicEssence surviving n
        else (surviving, n)
      let (opposing1, n2) :=
        if creature.rarity = "Legendary" ∨ creature.rarity = "Epic" then
          pushDeathEffect mkId guiltyConscience opposing n1
        else (opposing, n1)
      (surviving1, opposing1, n2))
    ([], opposingCreatures, 0)
  (r.1, r.2.1)

/-- A tool or spell definition (display `name` omitted). -/
structure Item where
  tool_effect : Option String
  tool_type : Option String
  spell_effect : Option String
  spell_type : Option String
  deriving Repr, DecidableEq

/-- A tool base-effect record from the `getToolEffect` tables. -/
structure ToolEffect where
  statChanges : Option StatMap
  healthChange : Option ℚ
  healthOverTime : Option ℚ
  chargeEffect : Option ChargeEffect
  energyGain : Option ℚ
  duration : Option ℚ
  deriving Repr, DecidableEq

/-- An all-`none` tool effect, the base for record literals below. -/
def emptyToolEffect : ToolEffect :=
  { statChanges := none, healthChange := none, healthOverTime := none,
    chargeEffect := none, energyGain := none, duration := none }

/-- The JS `reduce` over `Object.entries` rebuilding a stat object with
transformed values. -/
def mapStatValues (m : StatMap) (f : ℚ → ℚ) : StatMap :=
  m.foldl (fun acc sv => statSet acc sv.1 (f sv.2)) []

/-- `Object.keys(m)[0] || d`. -/
def firstKeyOr (m : StatMap) (d : String) : String :=
  match m with
  | [] => d
  | sv :: _ => if sv.1 = "" then d else sv.1

/-- The `baseEffects[type] || fallback` table of `getToolEffect`
(`itemEffects.js` lines 19–70). -/
def baseToolEffect (type : String) : ToolEffect :=
  if type = "energy" then
    { emptyToolEffect with
      statChanges := some [("energyCost", -1/2)],
      energyGain := some 2, duration := some 3 }
  else if type = "strength" then
    { emptyToolEffect with
      statChanges := some [("physicalAttack", 10), ("physicalDefense", 5)],
      duration := some 2 }
  else if type = "magic" then
    { emptyToolEffect with
      statChanges := some [("physicalDefense", 10), ("magicalDefense", 10), ("maxHealth", 15)],
      healthChange := some 5, duration := some 2 }
  else if type = "stamina" then
    { emptyToolEffect with
      statChanges := some [("physicalDefense", 5)],
      healthChange := some 10,
      chargeEffect := some ⟨"physicalDefense", 3, 3, 25⟩,
      duration := some 3 }
  else if type = "speed" then
    { emptyToolEffect with
      statChanges := (some [("physicalAttack", 8), ("magicalAttack", 8),
        ("physicalDefense", -2), ("magicalDefense", -2)]),
      healthChange := some 5, duration := some 3 }
  else
    { emptyToolEffect with
      statChanges := some [("physicalAttack", 3)],
      duration := some 3 }

/-- The main body of `getToolEffect` for a tool with truthy `tool_effect` and
`tool_type` (`itemEffects.js` lines 73–202). -/
def getToolEffectValid (effect type : String) : ToolEffect :=
  let baseEffect := baseToolEffect type
  if effect = "Surge" then
    if type = "strength" then
      { emptyToolEffect with
        statChanges := some [("physicalAttack", 10), ("physicalDefense", 5)],
        duration := some 2 }
    else
      { baseEffect with
        statChanges := some (mapStatValues (baseEffect.statChanges.getD []) (fun v => v * 2)),
        healthChange := some (orZero baseEffect.healthChange * (3/2)),
        duration := some 1 }
  else if effect = "Shield" then
    if type = "magic" then
      { emptyToolEffect with
        statChanges := some [("physicalDefense", 10), ("magicalDefense", 10), ("maxHealth", 15)],
        healthChange := some 5, duration := some 2 }
    else
      { emptyToolEffect with
        statChanges := some [("physicalDefense", 10), ("magicalDefense", 10), ("maxHealth", 15)],
        healthChange := some 8, duration := some 3 }
  else if effect = "Echo" then
    if type = "energy" then
      { emptyToolEffect with
        statChanges := some [("energyCost", -1/2)],
        healthOverTime := some 2, duration := some 3 }
    else
      { baseEffect with
        statChanges := (some (mapStatValues (baseEffect.statChanges.getD [])
          (fun v => jsRound (v * (7/10))))),
        healthOverTime := some (jsRound (orZero baseEffect.healthChange * (1/4))),
        duration := some 5 }
  else if effect = "Drain" then
    if type = "speed" then
      { emptyToolEffect with
        statChanges := (some [("physicalAttack", 8), ("magicalAttack", 8),
          ("physicalDefense", -2), ("magicalDefense", -2)]),
        healthChange := some 5, duration := some 3 }
    else
      { emptyToolEffect with
        statChanges := (some [("physicalAttack", 8), ("magicalAttack", 8),
          ("physicalDefense", -3), ("magicalDefense", -3)]),
        healthChange := some 5, duration := some 3 }
  else if effect = "Charge" then
    if type = "stamina" then
      { emptyToolEffect with
        statChanges := some [("physicalDefense", 3)],
        chargeEffect := some ⟨"physicalDefense", 3, 3, 25⟩,
        duration := some 3 }
    else
      { emptyToolEffect with
        statChanges := some [],
        chargeEffect := (some ⟨firstKeyOr (baseEffect.statChanges.getD []) "physicalAttack",
          3, 3, 15⟩),
        duration := some 3 }
  else
    { baseEffect with
      statChanges := (some (mapStatValues (baseEffect.statChanges.getD [])
        (fun v => jsRound (v * (11/10))))),
      healthChange := some (jsRound (orZero baseEffect.healthChange * (11/10))) }

/-- `getToolEffect(tool)`: a tool missing `tool_effect` or `tool_type` (or a
null tool) yields the safe default `{physicalDefense: +2, duration: 1}` —
never `null`. -/
def getToolEffect (tool : Option Item) : ToolEffect :=
  match tool with
  | none =>
    { emptyToolEffect with statChanges := some [("physicalDefense", 2)], duration := some 1 }
  | some t =>
    if strTruthy t.tool_effect ∧ strTruthy t.tool_type then
      getToolEffectValid (orStr t.tool_effect "") (orStr t.tool_type "")
    else
      { emptyToolEffect with statChanges := some [("physicalDefense", 2)], duration := some 1 }

/-- A spell base-effect record from the `getSpellEffect` tables. -/
structure SpellEffect where
  damage : Option ℚ
  healing : Option ℚ
  selfHeal : Option ℚ
  healthOverTime : Option ℚ
  statChanges : Option StatMap
  statDrain : Option StatMap
  statGain : Option StatMap
  chargeBonus : Option ℚ
  criticalChance : Option ℚ
  armorPiercing : Option Bool
  damageReduction : Option ℚ
  prepareEffect : Option PrepareEffect
  duration : Option ℚ
  deriving Repr, DecidableEq

/-- An all-`none` spell effect, the base for record literals below. -/
def emptySpellEffect : SpellEffect :=
  { damage := none, healing := none, selfHeal := none, healthOverTime := none,
    statChanges := none, statDrain := none, statGain := none,
    chargeBonus := none, criticalChance := none, armorPiercing := none,
    damageReduction := none, prepareEffect := none, duration := none }

/-- The `baseEffects[type] || fallback` table of `getSpellEffect`
(`itemEffects.js` lines 224–280), with `magicPower = 1 + casterMagic·0.15`. -/
def baseSpellEffect (type : String) (magicPower : ℚ) : SpellEffect :=
  if type = "energy" then
    { emptySpellEffect with
      damage := some (20 * magicPower),
      criticalChance := some 15, armorPiercing := some true, duration := some 0 }
  else if type = "strength" then
    { emptySpellEffect with
      damage := some (18 * magicPower),
      selfHeal := some (10 * magicPower),
      statDrain := some [("physicalAttack", -3), ("magicalAttack", -3)],
      statGain := some [("physicalAttack", 2), ("magicalAttack", 2)],
      duration := some 2 }
  else if type = "magic" then
    { emptySpellEffect with
      prepareEffect := some ⟨1, 35 * magicPower, true, 1/5⟩,
      chargeBonus := some (5 * magicPower), duration := some 1 }
  else if type = "stamina" then
    { emptySpellEffect with
      statChanges := some [("physicalDefense", 8), ("magicalDefense", 8), ("maxHealth", 15)],
      healing := some (15 * magicPower), damageReduction := some (3/20),
      duration := some 3 }
  else if type = "speed" then
    { emptySpellEffect with
      statChanges := some [("initiative", 5), ("dodgeChance", 3), ("criticalChance", 3)],
      healthOverTime := some 3, duration := some 3 }
  else
    { emptySpellEffect with damage := some (10 * magicPower), duration := some 2 }

/-- The main body of `getSpellEffect` for a spell with truthy `spell_effect`
and `spell_type` (`itemEffects.js` lines 217–428).  The `Drain` and `Charge`
cases return the same record in their special and default branches; the
source duplicates the literal. -/
def getSpellEffectValid (effect type : String) (casterMagic : ℚ) : SpellEffect :=
  let magicPower := 1 + casterMagic * (3/20)
  let baseEffect := baseSpellEffect type magicPower
  if effect = "Surge" then
    if type = "energy" then
      { emptySpellEffect with
        damage := some (25 * magicPower),
        criticalChance := some 15, armorPiercing := some true, duration := some 0 }
    else
      { emptySpellEffect with
        damage := some (orNum baseEffect.damage 15 * (5/2)),
        criticalChance := some 15, armorPiercing := some true, duration := some 0 }
  else if effect = "Shield" then
    if type = "stamina" then
      { emptySpellEffect with
        statChanges := some [("physicalDefense", 8), ("magicalDefense", 8), ("maxHealth", 15)],
        healing := some (15 * magicPower), damageReduction := some (3/20),
        duration := some 3 }
    else
      { emptySpellEffect with
        statChanges := some [("physicalDefense", 12), ("magicalDefense", 12), ("maxHealth", 20)],
        healing := some (15 * magicPower), damageReduction := some (1/5),
        duration := some 3 }
  else if effect = "Echo" then
    if type = "speed" then
      { emptySpellEffect with
        statChanges := some [("initiative", 5), ("dodgeChance", 3), ("criticalChance", 3)],
        healthOverTime := some 3, duration := some 3 }
    else
      { emptySpellEffect with
        healthOverTime := (some (if orZero baseEffect.healing ≠ 0 then
            jsRound (orZero baseEffect.healing / 3 * magicPower)
          else if orZero baseEffect.damage ≠ 0 then
            jsRound (-(orZero baseEffect.damage / 3) * magicPower)
          else 0)),
        statChanges := (some (match baseEffect.statChanges with
          | some sc => mapStatValues sc (fun v => jsRound (v * (3/10)))
          | none => [])),
        duration := some 3 }
  else if effect = "Drain" then
    { emptySpellEffect with
      damage := some (18 * magicPower),
      selfHeal := some (10 * magicPower),
      statDrain := some [("physicalAttack", -3), ("magicalAttack", -3)],
      statGain := some [("physicalAttack", 2), ("magicalAttack", 2)],
      duration := some 2 }
  else if effect = "Charge" then
    { emptySpellEffect with
      prepareEffect := some ⟨1, 35 * magicPower, true, 1/5⟩,
      chargeBonus := some (5 * magicPower), duration := some 1 }
  else
    { baseEffect with
      damage := some (orZero baseEffect.damage * (6/5)),
      healing := some (orZero baseEffect.healing * (6/5)),
      statChanges := (match baseEffect.statChanges with
        | some sc => some (mapStatValues sc (fun v => jsRound (v * (23/20))))
        | none => none) }

/-- `getSpellEffect(spell, casterMagic)`: a spell missing `spell_effect` or
`spell_type` (or a null spell) yields the safe default
`{damage: 5, duration: 1}` — never `null`. -/
def getSpellEffect (spell : Option Item) (casterMagic : ℚ) : SpellEffect :=
  match spell with
  | none => { emptySpellEffect with damage := some 5, duration := some 1 }
  | some s =>
    if strTruthy s.spell_effect ∧ strTruthy s.spell_type then
      getSpellEffectValid (orStr s.spell_effect "") (orStr s.spell_type "") casterMagic
    else { emptySpellEffect with damage := some 5, duration := some 1 }

/-- `calculateEffectPower(item, casterStats, difficulty)`: a difficulty
multiplier (easy 0.9 … expert 1.2) times, for spells with truthy caster
stats, `1 + (relevantStat − 5)·0.05` with `casterStats[spell_type] || 5`. -/
def calculateEffectPower (item : Item) (casterStats : Option StatMap)
    (difficulty : String) : ℚ :=
  let d : ℚ :=
    if difficulty = "easy" then 9/10
    else if difficulty = "medium" then 1
    else if difficulty = "hard" then 11/10
    else if difficulty = "expert" then 6/5
    else 1
  match casterStats, item.spell_type with
  | some cs, some sty =>
    if sty ≠ "" then
      d * (1 + (orNum (statLookup cs sty) 5 - 5) * (1/20))
    else d
  | _, _ => d

/-- The scaled tool effect built inside `applyTool` (lines 695–709):
per-stat magnitude capped at 10 then scaled by the multiplier capped at 1.5;
immediate healing capped at 50; `chargeEffect`/`energyGain` carried over by
the object spread. -/
structure ScaledToolEffect where
  statChanges : StatMap
  healthChange : ℚ
  healthOverTime : ℚ
  duration : ℚ
  chargeEffect : Option ChargeEffect
  energyGain : Option ℚ
  deriving Repr, DecidableEq

/-- `scaledToolEffect` of `applyTool`. -/
def scaleToolEffect (te : ToolEffect) (m : ℚ) : ScaledToolEffect :=
  { statChanges :=
      (match te.statChanges with
       | some sc => sc.foldl (fun acc sv =>
           statSet acc sv.1 (jsRound (min |sv.2| 10 * jsSign sv.2 * min m (3/2)))) []
       | none => []),
    healthChange :=
      (if orZero te.healthChange ≠ 0 then jsRound (min (orZero te.healthChange * m) 50)
       else 0),
    healthOverTime :=
      (if orZero te.healthOverTime ≠ 0 then jsRound (orZero te.healthOverTime * m)
       else 0),
    duration := orNum te.duration 1,
    chargeEffect := te.chargeEffect,
    energyGain := te.energyGain }

/-- The scaled spell effect built inside `applySpell` (lines 821–840):
damage capped at 100, healing at 80, self-heal at 40, per-stat magnitude at
12 before the multiplier capped at 1.5; `actualDamage`/`wasCritical` are
attached later when direct damage resolves. -/
structure ScaledSpellEffect where
  damage : ℚ
  healing : ℚ
  selfHeal : ℚ
  healthOverTime : ℚ
  statChanges : StatMap
  statDrain : Option StatMap
  statGain : Option StatMap
  chargeBonus : Option ℚ
  criticalChance : Option ℚ
  armorPiercing : Option Bool
  damageReduction : Option ℚ
  prepareEffect : Option PrepareEffect
  duration : Option ℚ
  actualDamage : Option ℚ
  wasCritical : Option Bool
  deriving Repr, DecidableEq

/-- `scaledSpellEffect` of `applySpell`. -/
def scaleSpellEffect (se : SpellEffect) (m : ℚ) : ScaledSpellEffect :=
  { damage :=
      (if orZero se.damage ≠ 0 then jsRound (min (orZero se.damage * m) 100) else 0),
    healing :=
      (if orZero se.healing ≠ 0 then jsRound (min (orZero se.healing * m) 80) else 0),
    selfHeal :=
      (if orZero se.selfHeal ≠ 0 then jsRound (min (orZero se.selfHeal * m) 40) else 0),
    healthOverTime :=
      (if orZero se.healthOverTime ≠ 0 then jsRound (orZero se.healthOverTime * m)
       else 0),
    statChanges :=
      (match se.statChanges with
       | some sc => sc.foldl (fun acc sv =>
           statSet acc sv.1 (jsRound (min |sv.2| 12 * jsSign sv.2 * min m (3/2)))) []
       | none => []),
    statDrain := se.statDrain,
    statGain := se.statGain,
    chargeBonus := se.chargeBonus,
    criticalChance := se.criticalChance,
    armorPiercing := se.armorPiercing,
    damageReduction := se.damageReduction,
    prepareEffect := se.prepareEffect,
    duration := se.duration,
    actualDamage := none,
    wasCritical := none }

/-- The active effect appended by `applyTool` (lines 725–747).  A `Charge`
tool re-types the effect to `charge` and scales its charge record. -/
def toolActiveEffect (t : Item) (toolEffect : ToolEffect)
    (scaled : ScaledToolEffect) (m currentTurn effectId : ℚ) : Effect :=
  { id := effectId,
    etype :=
      (if t.tool_effect = some "Charge" ∧ toolEffect.chargeEffect.isSome then "charge"
       else orStr t.tool_type "enhancement"),
    duration := scaled.duration,
    statModifications := scaled.statChanges,
    healthOverTime := some scaled.healthOverTime,
    chargeEffect :=
      (match toolEffect.chargeEffect, t.tool_effect with
       | some ce, some eff =>
         if eff = "Charge" then
           some { ce with perTurnBonus := jsRound (ce.perTurnBonus * m),
                          finalBurst := jsRound (ce.finalBurst * m) }
         else none
       | _, _ => none),
    prepareEffect := none,
    effectType := t.tool_effect,
    startTurn := some currentTurn }

/-- `applyTool(creature, tool, difficulty, currentTurn)` (lines 660–774):
soft-fail on a missing tool or missing `battleStats`; otherwise scale the
base effect, apply immediate stat changes (clamped at 0), append the active
effect when its duration is positive, apply immediate healing clamped to
`maxHealth`, and re-run the stat recalculation pipeline. -/
def applyTool (cds : Creature → StatMap) (creature : Creature)
    (tool : Option Item) (difficulty : String) (currentTurn effectId : ℚ) :
    Creature × Option ScaledToolEffect :=
  match tool with
  | none => (creature, none)
  | some t =>
    match creature.battleStats with
    | none => (creature, none)
    | some bs =>
      let creatureClone := { creature with currentTurn := some currentTurn }
      let basePowerMultiplier := calculateEffectPower t creature.stats difficulty
      let toolEffect := getToolEffect (some t)
      let scaled := scaleToolEffect toolEffect basePowerMultiplier
      let bs1 := scaled.statChanges.foldl
        (fun m sv => statUpdate m sv.1 (fun old => max 0 (old + sv.2))) bs
      let c1 := { creatureClone with battleStats := some bs1 }
      let c2 :=
        if 0 < scaled.duration then
          { c1 with activeEffects := c1.activeEffects ++
              [some (toolActiveEffect t toolEffect scaled basePowerMultiplier
                currentTurn effectId)] }
        else c1
      let c3 :=
        if 0 < scaled.healthChange then
          match statLookup bs1 "maxHealth" with
          | some mh =>
            { c2 with currentHealth := min (c2.currentHealth + scaled.healthChange) mh }
          | none => c2
        else c2
      (recalcCreature cds c3, some scaled)

/-- The active effect appended by `applySpell` (lines 922–944).  A `Charge`
spell re-types the effect to `charge` and scales its `prepareEffect`. -/
def spellActiveEffect (sp : Item) (spellEffect : SpellEffect)
    (scaled : ScaledSpellEffect) (m currentTurn effectId : ℚ) : Effect :=
  { id := effectId,
    etype :=
      (if sp.spell_effect = some "Charge" ∧ spellEffect.prepareEffect.isSome then "charge"
       else orStr sp.spell_type "magic"),
    duration := orZero spellEffect.duration,
    statModifications := scaled.statChanges,
    healthOverTime := some scaled.healthOverTime,
    chargeEffect := none,
    prepareEffect :=
      (match spellEffect.prepareEffect, sp.spell_effect with
       | some pe, some eff =>
         if eff = "Charge" then some { pe with damage := jsRound (pe.damage * m) }
         else none
       | _, _ => none),
    effectType := sp.spell_effect,
    startTurn := some currentTurn }

/-- `applySpell(caster, target, spell, difficulty, currentTurn)`
(lines 777–962): soft-fail on a missing spell, missing `caster.stats` or
missing `target.battleStats`; otherwise scale the base effect and apply
direct damage (with the magic-based critical roll `rand·100 ≤ critChance`
and armor piercing at multiplier ≥ 1.3), self-targeted healing, drain
self-heal, immediate stat changes, stat drain/gain transfer, the timed
active effect, and a final stat recalculation when stats changed. -/
def applySpell (cds : Creature → StatMap) (caster target : Creature)
    (spell : Option Item) (difficulty : String) (currentTurn rand effectId : ℚ) :
    Creature × Creature × Option ScaledSpellEffect :=
  match spell with
  | none => (caster, target, none)
  | some sp =>
    match caster.stats, target.battleStats with
    | some cstats, some tbs =>
      let targetClone := { target with currentTurn := some currentTurn }
      let casterClone := { caster with currentTurn := some currentTurn }
      let casterMagic := orNum (statLookup cstats "magic") 5
      let m := calculateEffectPower sp caster.stats difficulty
      let spellEffect := getSpellEffect (some sp) casterMagic
      let scaled0 := scaleSpellEffect spellEffect m
      let damaged :=
        if scaled0.damage ≠ 0 then
          let critChance := min (3 + jsFloor (casterMagic * (3/10))) 15
          let isCritical := rand * 100 ≤ critChance
          let fd1 := if isCritical then jsRound (scaled0.damage * (3/2)) else scaled0.damage
          let fd :=
            if scaled0.armorPiercing.getD false ∨ (13/10) ≤ m then fd1 + jsRound (fd1 * (1/5))
            else fd1
          ({ targetClone with currentHealth := max 0 (targetClone.currentHealth - fd) },
           { scaled0 with actualDamage := some fd, wasCritical := some isCritical })
        else (targetClone, scaled0)
      let target1 := damaged.1
      let scaled := damaged.2
      let target2 :=
        if scaled.healing ≠ 0 ∧ caster.id = target.id then
          match statLookup tbs "maxHealth" with
          | some mh =>
            { target1 with currentHealth := min (target1.currentHealth + scaled.healing) mh }
          | none => target1
        else target1
      let caster1 :=
        if scaled.selfHeal ≠ 0 ∧ caster.id ≠ target.id then
          match caster.battleStats with
          | some cbs =>
            (match statLookup cbs "maxHealth" with
             | some mh =>
               { casterClone with currentHealth :=
                   (min (casterClone.currentHealth + scaled.selfHeal) mh) }
             | none => casterClone)
          | none => casterClone
        else casterClone
      let target3 :=
        if scaled.statChanges ≠ [] then
          { target2 with battleStats := some (scaled.statChanges.foldl
              (fun mm sv => statUpdate mm sv.1 (fun old => max 0 (old + sv.2))) tbs) }
        else target2
      let drained :=
        match scaled.statDrain, scaled.statGain with
        | some sd, some sg =>
          sd.foldl (fun (acc : Creature × Creature) (sv : String × ℚ) =>
            match acc.1.battleStats, acc.2.battleStats with
            | some tm, some cm =>
              if (statLookup tm sv.1).isSome ∧ (statLookup cm sv.1).isSome then
                ({ acc.1 with battleStats := some (statUpdate tm sv.1
                     (fun old => max 0 (old + sv.2))) },
                 { acc.2 with battleStats := some (statUpdate cm sv.1
                     (fun old => old + orZero (statLookup sg sv.1))) })
              else acc
            | _, _ => acc) (target3, caster1)
        | _, _ => (target3, caster1)
      let target4 := drained.1
      let caster2 := drained.2
      let target5 :=
        if 0 < orZero spellEffect.duration then
          { target4 with activeEffects := target4.activeEffects ++
              [some (spellActiveEffect sp spellEffect scaled m currentTurn effectId)] }
        else target4
      let target6 := if scaled.statChanges ≠ [] then recalcCreature cds target5 else target5
      (caster2, target6, some scaled)
    | _, _ => (caster, target, none)

/-- The result of the external `calculateDamage` collaborator, plus the
`actualDamage` field `processAttack` writes back into it. -/
structure DamageResult where
  damage : ℚ
  isDodged : Bool
  isCritical : Bool
  effectiveness : String
  damageType : Option String
  actualDamage : Option ℚ
  deriving Repr, DecidableEq

/-- The `Critical Strike Trauma` debuff (lines 548–560). -/
def critDebuff (id startTurn : ℚ) : Effect :=
  { id := id, etype := "debuff", duration := 1,
    statModifications := [("physicalDefense", -2), ("magicalDefense", -2)],
    healthOverTime := none, chargeEffect := none, prepareEffect := none,
    effectType := none, startTurn := some startTurn }

/-- The `Elemental Weakness` debuff (lines 570–582). -/
def elementalWeakness (id startTurn : ℚ) : Effect :=
  { id := id, etype := "debuff", duration := 2,
    statModifications := [("physicalDefense", -1), ("magicalDefense", -1)],
    healthOverTime := none, chargeEffect := none, prepareEffect := none,
    effectType := none, startTurn := some startTurn }

/-- The record returned by `processAttack`.  The battle-log string is
display-only and omitted; `comboMultiplier` is the extra field spread into
the returned `damageResult`.  The JS validation sentinel leaves
`isCritical` / `attackType` / `isBlocked` / `comboMultiplier` undefined;
they are modelled as `false` / the input attack type / `false` / `0`. -/
structure AttackResult where
  updatedAttacker : Creature
  updatedDefender : Creature
  damage : ℚ
  finalDamage : ℚ
  totalDamage : ℚ
  damageDealt : ℚ
  actualDamage : ℚ
  isCritical : Bool
  attackType : String
  isBlocked : Bool
  comboMultiplier : ℚ
  damageResult : DamageResult
  deriving Repr, DecidableEq

/-- The snapshot clone taken by `processAttack` (lines 475–500): a shallow
spread that re-reads every listed field and computes
`maxHealth: x.maxHealth || x.health`. -/
def attackClone (c : Creature) : Creature :=
  { c with maxHealth := orOptNum c.maxHealth c.health }

/-- The damage-application tail of `processAttack` (lines 530–656), given
the prepared attacker/defender snapshots and the damage result: the dodged
branch returns everything untouched with zero damage; the hit branch clamps
health at 0, rolls the two debuff procs, and fans the actual damage out into
the aliased result fields. -/
def processAttackResolve (attacker1 defenderClone : Creature)
    (attackType : String) (comboMultiplier : ℚ) (dr : DamageResult)
    (r1 r2 id1 id2 : ℚ) : AttackResult :=
  if dr.isDodged then
    { updatedAttacker := attacker1, updatedDefender := defenderClone,
      damage := 0, finalDamage := 0, totalDamage := 0, damageDealt := 0,
      actualDamage := 0, isCritical := dr.isCritical, attackType := attackType,
      isBlocked := dr.isDodged, comboMultiplier := comboMultiplier,
      damageResult := { dr with damage := 0 } }
  else
    let previousHealth := defenderClone.currentHealth
    let newHealth := max 0 (previousHealth - dr.damage)
    let actualDamage := previousHealth - newHealth
    let d1 := { defenderClone with currentHealth := newHealth }
    let d2 :=
      if dr.isCritical ∧ r1 < 1/5 then
        { d1 with activeEffects := d1.activeEffects ++
            [some (critDebuff id1 (orZero d1.currentTurn))] }
      else d1
    let d3 :=
      if (dr.effectiveness = "very effective" ∨ dr.effectiveness = "effective") ∧ r2 < 1/4 then
        { d2 with activeEffects := d2.activeEffects ++
            [some (elementalWeakness id2 (orZero d2.currentTurn))] }
      else d2
    { updatedAttacker := attacker1, updatedDefender := d3,
      damage := actualDamage, finalDamage := actualDamage,
      totalDamage := actualDamage, damageDealt := actualDamage,
      actualDamage := actualDamage, isCritical := dr.isCritical,
      attackType := attackType, isBlocked := dr.isDodged,
      comboMultiplier := comboMultiplier,
      damageResult := { dr with damage := actualDamage,
                                actualDamage := some actualDamage } }

/-- `processAttack(attacker, defender, attackType, comboLevel)`
(lines 457–657).  `calcDamage` and `comboFn` are the external
`calculateDamage` / `calculateComboBonus` collaborators; `r1`/`r2` are the
two inline `Math.random()` draws guarding the critical-strike and
elemental-weakness debuff procs, and `id1`/`id2` their `Date.now()` ids.
Missing battle stats on either side short-circuits to the zero-damage
sentinel.  In the dodged case nothing is applied: health, effects and the
zero `actualDamage` are returned untouched. -/
def processAttack (calcDamage : Creature → Creature → String → ℚ → DamageResult)
    (comboFn : ℚ → ℚ) (attacker defender : Creature)
    (attackType0 : String) (comboLevel : ℚ) (r1 r2 id1 id2 : ℚ) : AttackResult :=
  match attacker.battleStats, defender.battleStats with
  | some abs0, some _dbs0 =>
    let attackerClone := attackClone attacker
    let defenderClone := attackClone defender
    let attackType :=
      if attackType0 = "auto" then
        match statLookup abs0 "physicalAttack", statLookup abs0 "magicalAttack" with
        | some p, some mg => if mg ≤ p then "physical" else "magical"
        | _, _ => "magical"
      else attackType0
    let attacker1 :=
      match attacker.nextAttackBonus with
      | some b =>
        if b ≠ 0 then
          { attackerClone with
            battleStats := (some (statUpdate abs0
              (if attackType = "physical" then "physicalAttack" else "magicalAttack")
              (fun v => v + b))),
            nextAttackBonus := none }
        else attackerClone
      | none => attackerClone
    let comboMultiplier := comboFn comboLevel
    let dr := calcDamage attacker1 defenderClone attackType comboMultiplier
    processAttackResolve attacker1 defenderClone attackType comboMultiplier dr
      r1 r2 id1 id2
  | _, _ =>
    { updatedAttacker := attacker, updatedDefender := defender,
      damage := 0, finalDamage := 0, totalDamage := 0, damageDealt := 0,
      actualDamage := 0, isCritical := false, attackType := attackType0,
      isBlocked := false, comboMultiplier := 0,
      damageResult := { damage := 0, isDodged := false, isCritical := false,
                        effectiveness := "normal", damageType := none,
                        actualDamage := none } }

/-! ## Concrete fixtures for evaluations -/

/-- A minimal well-formed creature template for concrete evaluations. -/
def baseCreature : Creature :=
  { id := 1, rarity := "Common", specialty_stats := [], stats := some [],
    battleStats := none, currentHealth := 0, activeEffects := [],
    isDefending := false, nextAttackBonus := none, permanentModifications := none,
    combination_level := none, currentTurn := none, maxHealth := none,
    health := none, form := none }

/-- A placeholder sine table: `Math.sin` values never steer any claim. -/
def zeroSin : ℚ → ℚ := fun _ => 0

/-- A concrete external stat derivation returning `maxHealth 50`. -/
def constStats50 : Creature → StatMap := fun _ => [("maxHealth", 50)]

/-- An active effect lowering `maxHealth` by 30 for 2 turns. -/
def maxHealthDrainEffect : Effect :=
  { id := 7, etype := "stat", duration := 2,
    statModifications := [("maxHealth", -30)],
    healthOverTime := none, chargeEffect := none, prepareEffect := none,
    effectType := none, startTurn := some 0 }

/-- A full-health creature carrying `maxHealthDrainEffect`. -/
def clampCexCreature : Creature :=
  { baseCreature with
    battleStats := some [("maxHealth", 50)],
    currentHealth := 50, activeEffects := [some maxHealthDrainEffect] }

/-- C1 — code bug.  The claim (and the data model, and the clamp inside
`recalculateDerivedStats`) requires `currentHealth ≤ battleStats.maxHealth`
after the ongoing-effects tick, *including when an effect lowers `maxHealth`
during the tick*.  The inline stat rebuild of `applyOngoingEffects`
(lines 337–348) omits the health clamp that `recalculateDerivedStats`
performs: a creature at 50/50 health with an active `maxHealth −30` effect
leaves the tick at `currentHealth = 50` against `maxHealth = 20`. -/
theorem tick_maxHealth_unclamped :
    (applyOngoingEffectsCreature zeroSin constStats50 "medium" 1
        clampCexCreature).currentHealth = 50 ∧
    statLookup ((applyOngoingEffectsCreature zeroSin constStats50 "medium" 1
        clampCexCreature).battleStats.getD []) "maxHealth" = some 20 ∧
    ¬ ((applyOngoingEffectsCreature zeroSin constStats50 "medium" 1
        clampCexCreature).currentHealth ≤ 20) := by
  norm_num [applyOngoingEffectsCreature, clampCexCreature, baseCreature,
    maxHealthDrainEffect, constStats50, zeroSin, tickStateStep, effResult,
    processTimedEffect, chargeCheck, keepEffect, statLookup, statSet, statAdd,
    statUpdate, orZero, orNum, jsRound, jsFloor, List.find?]

@[simp] theorem orZero_some (v : ℚ) : orZero (some v) = v := by
  by_cases h : v = 0 <;> simp [orZero, orNum, h]

@[simp] theorem orZero_none : orZero none = 0 := rfl

/-- A concrete external stat derivation with a `physicalDefense` stat. -/
def pdStats : Creature → StatMap := fun _ => [("physicalDefense", 10), ("maxHealth", 50)]

/-- The active effect a `Charge` tool attaches (`applyTool` lines 740–747):
type `charge`, `effectType` `Charge`, duration 3, no own stat modifications,
a `physicalDefense` ramp of `perTurnBonus p` over `maxTurns 3` ending in
`finalBurst burst`, started at turn `t0`. -/
def chargeToolAttached (p burst t0 : ℚ) : Effect :=
  { id := 8, etype := "charge", duration := 3, statModifications := [],
    healthOverTime := none,
    chargeEffect := some ⟨"physicalDefense", p, 3, burst⟩,
    prepareEffect := none, effectType := some "Charge", startTurn := some t0 }

/-- A creature carrying exactly the charge effect above. -/
def chargeCreature (p burst t0 : ℚ) : Creature :=
  { baseCreature with
    battleStats := some [("physicalDefense", 10), ("maxHealth", 50)],
    currentHealth := 50,
    activeEffects := [some (chargeToolAttached p burst t0)] }

/-- C2 — counterexample to the claim as stated.  A charge effect with
`perTurnBonus 3`, `maxTurns 3` attached at turn 0 should, per the claim, give
`physicalDefense` exactly `floor(3·1/3) = 1` on its first tick (10 → 11).
The code applies the incremental bonus twice — once through
`processTimedEffect`'s `statModifications` and once through the charge block
of `applyOngoingEffects` — yielding 10 → 12. -/
theorem charge_increment_doubled_cex :
    statLookup ((applyOngoingEffectsCreature zeroSin pdStats "medium" 1
        (chargeCreature 3 25 0)).battleStats.getD []) "physicalDefense" = some 12 ∧
    ¬ (statLookup ((applyOngoingEffectsCreature zeroSin pdStats "medium" 1
        (chargeCreature 3 25 0)).battleStats.getD []) "physicalDefense" = some 11) := by
  norm_num [applyOngoingEffectsCreature, chargeCreature, chargeToolAttached,
    baseCreature, pdStats, zeroSin, tickStateStep, effResult, processTimedEffect,
    chargeCheck, keepEffect, maxTurnsOr3, statLookup, statSet, statAdd,
    statUpdate, orZero, orNum, jsRound, jsFloor, List.find?]


/-- C2 — amended.  For a charge effect with `maxTurns = 3` and
`perTurnBonus p ≥ 3` (with truthy `finalBurst`) attached at turn `t0`,
ticking at turns `t0+1`, `t0+2`, `t0+3`: on ticks 1 and 2 the target stat
receives the incremental bonus `floor(p·elapsed/3)` **twice** — once through
`processTimedEffect`'s stat modifications and once through the charge block
of `applyOngoingEffects` — and the effect survives with duration 2 then 1;
on tick 3 the `finalBurst` is granted exactly once as `nextAttackBonus` and
the effect is removed in that same tick. -/
theorem charge_ramp_double_then_burst (p burst t0 : ℚ) (hp : 3 ≤ p) (hb : burst ≠ 0) :
    (applyOngoingEffectsCreature zeroSin pdStats "medium" (t0 + 1)
        (chargeCreature p burst t0)).battleStats =
      some [("physicalDefense", 10 + 2 * jsFloor (p * (1/3))), ("maxHealth", 50)] ∧
    (applyOngoingEffectsCreature zeroSin pdStats "medium" (t0 + 1)
        (chargeCreature p burst t0)).nextAttackBonus = none ∧
    ((applyOngoingEffectsCreature zeroSin pdStats "medium" (t0 + 1)
        (chargeCreature p burst t0)).activeEffects.map
          (Option.map Effect.duration)) = [some 2] ∧
    (applyOngoingEffectsCreature zeroSin pdStats "medium" (t0 + 2)
        (applyOngoingEffectsCreature zeroSin pdStats "medium" (t0 + 1)
          (chargeCreature p burst t0))).battleStats =
      some [("physicalDefense", 10 + 2 * jsFloor (p * (2/3))), ("maxHealth", 50)] ∧
    (applyOngoingEffectsCreature zeroSin pdStats "medium" (t0 + 2)
        (applyOngoingEffectsCreature zeroSin pdStats "medium" (t0 + 1)
          (chargeCreature p burst t0))).nextAttackBonus = none ∧
    ((applyOngoingEffectsCreature zeroSin pdStats "medium" (t0 + 2)
        (applyOngoingEffectsCreature zeroSin pdStats "medium" (t0 + 1)
          (chargeCreature p burst t0))).activeEffects.map
            (Option.map Effect.duration)) = [some 1] ∧
    (applyOngoingEffectsCreature zeroSin pdStats "medium" (t0 + 3)
        (applyOngoingEffectsCreature zeroSin pdStats "medium" (t0 + 2)
          (applyOngoingEffectsCreature zeroSin pdStats "medium" (t0 + 1)
            (chargeCreature p burst t0)))).activeEffects = [] ∧
    (applyOngoingEffectsCreature zeroSin pdStats "medium" (t0 + 3)
        (applyOngoingEffectsCreature zeroSin pdStats "medium" (t0 + 2)
          (applyOngoingEffectsCreature zeroSin pdStats "medium" (t0 + 1)
            (chargeCreature p burst t0)))).nextAttackBonus = some burst := by
  have hpos1 : (0 : ℚ) < jsFloor (p * (1/3)) := by
    unfold jsFloor
    have h : (1 : ℤ) ≤ ⌊p * (1/3)⌋ := by
      rw [Int.le_floor]; push_cast; linarith
    have h2 : ((1 : ℤ) : ℚ) ≤ (⌊p * (1/3)⌋ : ℚ) := by exact_mod_cast h
    push_cast at h2 ⊢
    linarith
  have hpos2 : (0 : ℚ) < jsFloor (p * (2/3)) := by
    unfold jsFloor
    have h : (1 : ℤ) ≤ ⌊p * (2/3)⌋ := by
      rw [Int.le_floor]; push_cast; linarith
    have h2 : ((1 : ℤ) : ℚ) ≤ (⌊p * (2/3)⌋ : ℚ) := by exact_mod_cast h
    push_cast at h2 ⊢
    linarith
  have hne : ¬ ("physicalDefense" : String) = "" := by decide
  have hne2 : ¬ ("maxHealth" : String) = "physicalDefense" := by decide
  have h1 : applyOngoingEffectsCreature zeroSin pdStats "medium" (t0 + 1)
      (chargeCreature p burst t0) =
      { baseCreature with
        battleStats := (some [("physicalDefense",
          max 0 (10 + (jsFloor (p * (1/3)) + jsFloor (p * (1/3))))), ("maxHealth", 50)]),
        currentHealth := 50,
        activeEffects := [some { chargeToolAttached p burst t0 with
          statModifications := [("physicalDefense", jsFloor (p * (1/3)))],
          duration := 2 }] } := by
    norm_num [applyOngoingEffectsCreature, chargeCreature, chargeToolAttached,
      baseCreature, pdStats, zeroSin, tickStateStep, effResult, processTimedEffect,
      chargeCheck, keepEffect, maxTurnsOr3, statLookup, statSet, statAdd,
      statUpdate, List.find?, add_sub_cancel_left, hpos1, hne, hne2]
  rw [h1]
  have h2 : applyOngoingEffectsCreature zeroSin pdStats "medium" (t0 + 2)
      { baseCreature with
        battleStats := (some [("physicalDefense",
          max 0 (10 + (jsFloor (p * (1/3)) + jsFloor (p * (1/3))))), ("maxHealth", 50)]),
        currentHealth := 50,
        activeEffects := [some { chargeToolAttached p burst t0 with
          statModifications := [("physicalDefense", jsFloor (p * (1/3)))],
          duration := 2 }] } =
      { baseCreature with
        battleStats := (some [("physicalDefense",
          max 0 (10 + (jsFloor (p * (2/3)) + jsFloor (p * (2/3))))), ("maxHealth", 50)]),
        currentHealth := 50,
        activeEffects := [some { chargeToolAttached p burst t0 with
          statModifications := [("physicalDefense", jsFloor (p * (2/3)))],
          duration := 1 }] } := by
    norm_num [applyOngoingEffectsCreature, chargeCreature, chargeToolAttached,
      baseCreature, pdStats, zeroSin, tickStateStep, effResult, processTimedEffect,
      chargeCheck, keepEffect, maxTurnsOr3, statLookup, statSet, statAdd,
      statUpdate, List.find?, add_sub_cancel_left, hpos2, hne, hne2]
  rw [h2]
  have h3 : applyOngoingEffectsCreature zeroSin pdStats "medium" (t0 + 3)
      { baseCreature with
        battleStats := (some [("physicalDefense",
          max 0 (10 + (jsFloor (p * (2/3)) + jsFloor (p * (2/3))))), ("maxHealth", 50)]),
        currentHealth := 50,
        activeEffects := [some { chargeToolAttached p burst t0 with
          statModifications := [("physicalDefense", jsFloor (p * (2/3)))],
          duration := 1 }] } =
      { baseCreature with
        battleStats := (some [("physicalDefense",
          max 0 (10 + jsFloor (p * (2/3)))), ("maxHealth", 50)]),
        currentHealth := 50,
        activeEffects := [],
        nextAttackBonus := some burst } := by
    norm_num [applyOngoingEffectsCreature, chargeCreature, chargeToolAttached,
      baseCreature, pdStats, zeroSin, tickStateStep, effResult, processTimedEffect,
      chargeCheck, keepEffect, maxTurnsOr3, statLookup, statSet, statAdd,
      statUpdate, List.find?, add_sub_cancel_left, hb, hne, hne2]
  rw [h3]
  have hm1 : max 0 (10 + (jsFloor (p * (1/3)) + jsFloor (p * (1/3))))
      = 10 + 2 * jsFloor (p * (1/3)) := by
    rw [max_eq_right (by linarith)]; ring
  have hm2 : max 0 (10 + (jsFloor (p * (2/3)) + jsFloor (p * (2/3))))
      = 10 + 2 * jsFloor (p * (2/3)) := by
    rw [max_eq_right (by linarith)]; ring
  norm_num [baseCreature, chargeToolAttached, hm1, hm2]

/-- A tool/spell object present but missing all of its effect/type fields. -/
def fieldlessItem : Item :=
  { tool_effect := none, tool_type := none, spell_effect := none, spell_type := none }

/-- A well-formed creature for item application. -/
def validTarget : Creature :=
  { baseCreature with
    battleStats := some [("physicalDefense", 10), ("maxHealth", 50)],
    currentHealth := 30 }

set_option maxHeartbeats 1000000 in
/-- C3 — counterexample to the claim as stated.  A tool that is present but
lacks `tool_effect`/`tool_type` does **not** fail softly: `getToolEffect`
substitutes the fallback `{physicalDefense: +2, duration: 1}`, which
`applyTool` then applies (battle stats mutate 10 → 12, an active effect is
attached, and a non-null effect is returned).  Likewise a fieldless spell
returns a non-null effect and deals its fallback 5 damage (30 → 25 health). -/
theorem fieldless_item_applied_cex :
    (applyTool pdStats validTarget (some fieldlessItem) "medium" 0 55).2 ≠ none ∧
    (applyTool pdStats validTarget (some fieldlessItem) "medium" 0 55).1.battleStats =
      some [("physicalDefense", 12), ("maxHealth", 50)] ∧
    ((applyTool pdStats validTarget (some fieldlessItem) "medium" 0 55).1.activeEffects.map
      (Option.map Effect.duration)) = [some 1] ∧
    (applySpell pdStats validTarget validTarget (some fieldlessItem) "medium" 0 (1/2) 56).2.2
      ≠ none ∧
    (applySpell pdStats validTarget validTarget (some fieldlessItem) "medium" 0 (1/2) 56).2.1.currentHealth
      = 25 := by
  have hd1 : strIncludes "physicalDefense" "Attack" = false := by decide
  have hd2 : strIncludes "physicalDefense" "Defense" = true := by decide
  have hd3 : strIncludes "maxHealth" "Attack" = false := by decide
  have hd4 : strIncludes "maxHealth" "Defense" = false := by decide
  refine ⟨?_, ?_, ?_, ?_, ?_⟩ <;>
    norm_num +decide [applyTool, applySpell, validTarget, fieldlessItem, baseCreature,
      pdStats, getToolEffect, getSpellEffect, emptyToolEffect, emptySpellEffect,
      scaleToolEffect, scaleSpellEffect, calculateEffectPower, strTruthy,
      toolActiveEffect, spellActiveEffect, recalcCreature, recalculateDerivedStats,
      applyEffectMod, statLookup, statSet, statAdd, statUpdate, orNum, orStr,
      jsRound, jsFloor, jsSign, min_def, max_def, List.find?, hd1, hd2, hd3, hd4]

/-- C3 — amended.  `applyTool`/`applySpell` fail softly — returning the
original entities untouched together with a null effect — exactly on a
missing (null) tool/spell, a creature without `battleStats` (tools), a
caster without `stats` or a target without `battleStats` (spells).  A tool
or spell object that is merely missing its effect/type fields is *not* a
soft failure: the fallback base effect is applied instead
(see `fieldless_item_applied_cex`). -/
theorem item_soft_fail_on_missing_entities (cds : Creature → StatMap)
    (c c' ca ta ca' ta' : Creature) (t sp : Option Item)
    (difficulty : String) (turn eid rand : ℚ)
    (hc : c.battleStats = none) (hca : ca.stats = none) (hta : ta.battleStats = none) :
    applyTool cds c t difficulty turn eid = (c, none) ∧
    applyTool cds c' none difficulty turn eid = (c', none) ∧
    applySpell cds ca ta' sp difficulty turn rand eid = (ca, ta', none) ∧
    applySpell cds ca' ta sp difficulty turn rand eid = (ca', ta, none) ∧
    applySpell cds ca' ta' none difficulty turn rand eid = (ca', ta', none) := by
  refine ⟨?_, rfl, ?_, ?_, rfl⟩
  · cases t with
    | none => rfl
    | some t0 => simp [applyTool, hc]
  · cases sp with
    | none => rfl
    | some s0 => simp [applySpell, hca]
  · cases sp with
    | none => rfl
    | some s0 =>
      cases h : ca'.stats with
      | none => simp [applySpell, h]
      | some cs => simp [applySpell, h, hta]

/-- Witness for `item_soft_fail_on_missing_entities` at concrete inputs. -/
theorem item_soft_fail_on_missing_entities_witness :
    applyTool pdStats baseCreature (some fieldlessItem) "medium" 0 1 = (baseCreature, none) ∧
    applyTool pdStats validTarget none "medium" 0 1 = (validTarget, none) ∧
    applySpell pdStats { baseCreature with stats := none } validTarget
      (some fieldlessItem) "medium" 0 (1/2) 1 =
      ({ baseCreature with stats := none }, validTarget, none) ∧
    applySpell pdStats validTarget baseCreature (some fieldlessItem) "medium" 0 (1/2) 1 =
      (validTarget, baseCreature, none) ∧
    applySpell pdStats validTarget validTarget none "medium" 0 (1/2) 1 =
      (validTarget, validTarget, none) :=
  item_soft_fail_on_missing_entities pdStats baseCreature validTarget
    { baseCreature with stats := none } baseCreature validTarget validTarget
    (some fieldlessItem) (some fieldlessItem) "medium" 0 1 (1/2)
    rfl rfl rfl

/-- Witness for `charge_ramp_double_then_burst` at `p = 3`, `burst = 25`,
`t0 = 0`. -/
theorem charge_ramp_double_then_burst_witness :
    (applyOngoingEffectsCreature zeroSin pdStats "medium" (0 + 1)
        (chargeCreature 3 25 0)).battleStats =
      some [("physicalDefense", 10 + 2 * jsFloor (3 * (1/3))), ("maxHealth", 50)] ∧
    (applyOngoingEffectsCreature zeroSin pdStats "medium" (0 + 3)
        (applyOngoingEffectsCreature zeroSin pdStats "medium" (0 + 2)
          (applyOngoingEffectsCreature zeroSin pdStats "medium" (0 + 1)
            (chargeCreature 3 25 0)))).nextAttackBonus = some 25 := by
  have h := charge_ramp_double_then_burst 3 25 0 (le_refl 3) (by norm_num)
  exact ⟨h.1, h.2.2.2.2.2.2.2⟩

/-- A defeated Legendary creature whose specialty stats include `energy`. -/
def deadLegendaryEnergy : Creature :=
  { baseCreature with
    rarity := "Legendary", specialty_stats := ["energy"],
    battleStats := some [("physicalAttack", 5), ("magicalAttack", 5)],
    currentHealth := 0 }

/-- A healthy ally for death-trigger evaluations. -/
def survivorAlly : Creature :=
  { baseCreature with
    battleStats := some [("physicalAttack", 5), ("magicalAttack", 5)],
    currentHealth := 10 }

/-- A sequential id source standing in for `Date.now() + Math.random()`. -/
def seqId : ℕ → ℚ := fun n => (n : ℚ) + 100

/-- C4 — counterexample to the claim as stated.  The death triggers form an
`else if` chain: a defeated Legendary creature whose `specialty_stats`
include `energy` injects **only** the legendary blessing onto the survivor —
no `energy_burst` effect is stacked, contradicting "multiple triggers stack
independently". -/
theorem legendary_energy_not_stacked_cex :
    ((processDefeatedCreatures seqId [survivorAlly, deadLegendaryEnergy] []).1.map
      (fun c => c.activeEffects.map (Option.map Effect.etype)))
      = [[some "legendary_blessing"]] := by
  norm_num [processDefeatedCreatures, survivorAlly, deadLegendaryEnergy,
    baseCreature, seqId, pushDeathEffect, bumpAttack, legendaryBlessing,
    statUpdate, List.find?]

/-- C4 — amended.  For each defeated creature the first matching death
trigger *alone* fires — Legendary blessing, else energy-specialty burst,
else Epic essence — over the survivors accumulated so far in field order,
and the revenge debuff is then applied independently for Legendary/Epic.
In particular a defeated Legendary with `energy` in its specialty stats
grants only the 5-turn legendary blessing to a preceding survivor (never
the Energy Release effect), plus the revenge debuff on the opposing field. -/
theorem legendary_trigger_shadows_energy (s o d : Creature) (mkId : ℕ → ℚ)
    (hs : 0 < s.currentHealth) (hd : ¬ 0 < d.currentHealth)
    (hr : d.rarity = "Legendary") :
    processDefeatedCreatures mkId [s, d] [o] =
      ([bumpAttack { s with activeEffects := s.activeEffects ++
          [some (legendaryBlessing (mkId 0) (orZero s.currentTurn))] }],
       [{ o with activeEffects := o.activeEffects ++
          [some (guiltyConscience (mkId 1) (orZero o.currentTurn))] }]) := by
  simp [processDefeatedCreatures, pushDeathEffect, hs, hd, hr]

/-- Witness for `legendary_trigger_shadows_energy` at concrete creatures. -/
theorem legendary_trigger_shadows_energy_witness :
    processDefeatedCreatures seqId [survivorAlly, deadLegendaryEnergy] [survivorAlly] =
      ([bumpAttack { survivorAlly with activeEffects := survivorAlly.activeEffects ++
          [some (legendaryBlessing (seqId 0) (orZero survivorAlly.currentTurn))] }],
       [{ survivorAlly with activeEffects := survivorAlly.activeEffects ++
          [some (guiltyConscience (seqId 1) (orZero survivorAlly.currentTurn))] }]) :=
  legendary_trigger_shadows_energy survivorAlly survivorAlly deadLegendaryEnergy seqId
    (by norm_num [survivorAlly, baseCreature])
    (by norm_num [deadLegendaryEnergy, baseCreature])
    rfl

/-- A defeated Legendary creature (no special specialty stats). -/
def deadLegendary : Creature :=
  { baseCreature with
    rarity := "Legendary",
    battleStats := some [("physicalAttack", 5), ("magicalAttack", 5)],
    currentHealth := 0 }

/-- C8 — counterexample to the claim as stated.  Death triggers run over the
survivors accumulated *so far* in field order: when the defeated Legendary
creature sits first in the field, the three following survivors receive no
blessing at all (0 `legendary_blessing` effects are appended, not 3), and
the survivors are returned entirely untouched. -/
theorem legendary_blessing_position_dependent_cex :
    (processDefeatedCreatures seqId
        [deadLegendary, survivorAlly, survivorAlly, survivorAlly] []).1 =
      [survivorAlly, survivorAlly, survivorAlly] ∧
    ((processDefeatedCreatures seqId
        [deadLegendary, survivorAlly, survivorAlly, survivorAlly] []).1.map
      (fun c => c.activeEffects)) = [[], [], []] := by
  norm_num [processDefeatedCreatures, deadLegendary, survivorAlly, baseCreature,
    pushDeathEffect, seqId]

/-- C8 — amended.  When the three survivors precede the defeated Legendary
creature in field order, `processDefeatedCreatures` appends exactly one
`legendary_blessing` effect (duration 5, `{physicalAttack:+2,
magicalAttack:+2}`, see `legendaryBlessing`) to each of the three survivors,
bumps their attack stats, and returns exactly those three survivors. -/
theorem legendary_blessing_per_survivor (s1 s2 s3 d : Creature) (mkId : ℕ → ℚ)
    (h1 : 0 < s1.currentHealth) (h2 : 0 < s2.currentHealth)
    (h3 : 0 < s3.currentHealth) (hd : ¬ 0 < d.currentHealth)
    (hr : d.rarity = "Legendary") :
    (processDefeatedCreatures mkId [s1, s2, s3, d] []).1 =
      [bumpAttack { s1 with activeEffects := s1.activeEffects ++
          [some (legendaryBlessing (mkId 0) (orZero s1.currentTurn))] },
       bumpAttack { s2 with activeEffects := s2.activeEffects ++
          [some (legendaryBlessing (mkId 1) (orZero s2.currentTurn))] },
       bumpAttack { s3 with activeEffects := s3.activeEffects ++
          [some (legendaryBlessing (mkId 2) (orZero s3.currentTurn))] }] := by
  simp [processDefeatedCreatures, pushDeathEffect, h1, h2, h3, hd, hr]

/-- Witness for `legendary_blessing_per_survivor` at concrete creatures. -/
theorem legendary_blessing_per_survivor_witness :
    (processDefeatedCreatures seqId
        [survivorAlly, survivorAlly, survivorAlly, deadLegendary] []).1 =
      [bumpAttack { survivorAlly with activeEffects := survivorAlly.activeEffects ++
          [some (legendaryBlessing (seqId 0) (orZero survivorAlly.currentTurn))] },
       bumpAttack { survivorAlly with activeEffects := survivorAlly.activeEffects ++
          [some (legendaryBlessing (seqId 1) (orZero survivorAlly.currentTurn))] },
       bumpAttack { survivorAlly with activeEffects := survivorAlly.activeEffects ++
          [some (legendaryBlessing (seqId 2) (orZero survivorAlly.currentTurn))] }] :=
  legendary_blessing_per_survivor survivorAlly survivorAlly survivorAlly deadLegendary
    seqId (by norm_num [survivorAlly, baseCreature])
    (by norm_num [survivorAlly, baseCreature])
    (by norm_num [survivorAlly, baseCreature])
    (by norm_num [deadLegendary, baseCreature]) rfl

/-- C5 — confirmed.  The Stat Recalculation Pipeline is idempotent: with the
external base derivation a pure function of the creature's base attributes
(it may not read the `battleStats`/`currentHealth` the call itself rewrites),
running `recalculateDerivedStats` again on the creature updated by a first
run — same `activeEffects`, same `permanentModifications`, same base stats —
returns the same battle-stat map. -/
theorem recalculateDerivedStats_idempotent (cds : Creature → StatMap)
    (hcds : ∀ c bs q, cds { c with battleStats := bs, currentHealth := q } = cds c)
    (c : Creature) :
    (recalculateDerivedStats cds (recalcCreature cds c)).1 =
      (recalculateDerivedStats cds c).1 := by
  cases hst : c.stats with
  | none =>
    simp [recalculateDerivedStats, recalcCreature, hst]
  | some s =>
    have h1 : (recalcCreature cds c).stats = c.stats := rfl
    have h2 : (recalcCreature cds c).activeEffects = c.activeEffects := rfl
    have h3 : (recalcCreature cds c).permanentModifications = c.permanentModifications := rfl
    have h4 : (recalcCreature cds c).combination_level = c.combination_level := rfl
    have hc1 : cds (recalcCreature cds c) = cds c := hcds c _ _
    simp [recalculateDerivedStats, h1, h2, h3, h4, hc1, hst]

/-- Witness for `recalculateDerivedStats_idempotent` at a constant base
derivation and a concrete creature. -/
theorem recalculateDerivedStats_idempotent_witness :
    (recalculateDerivedStats constStats50 (recalcCreature constStats50 validTarget)).1 =
      (recalculateDerivedStats constStats50 validTarget).1 :=
  recalculateDerivedStats_idempotent constStats50 (fun _ _ _ => rfl) validTarget

/-- Both branches of `processAttackResolve` return a `damageResult` whose
`isDodged` flag is the one `calculateDamage` produced. -/
theorem processAttackResolve_isDodged (a1 dc : Creature) (ty : String)
    (cm : ℚ) (dr : DamageResult) (r1 r2 id1 id2 : ℚ) :
    (processAttackResolve a1 dc ty cm dr r1 r2 id1 id2).damageResult.isDodged
      = dr.isDodged := by
  unfold processAttackResolve
  split <;> rfl

/-- C6 — confirmed.  For attacker and defender that both carry battle stats,
when the damage result is dodged `processAttack` leaves the defender's
`currentHealth` exactly as it was, attaches no debuff (the returned
defender's `activeEffects` equal the input's), and returns
`actualDamage = 0`. -/
theorem processAttack_dodged_conserves
    (calcDamage : Creature → Creature → String → ℚ → DamageResult)
    (comboFn : ℚ → ℚ) (attacker defender : Creature)
    (attackType0 : String) (comboLevel r1 r2 id1 id2 : ℚ)
    (ha : attacker.battleStats.isSome) (hd : defender.battleStats.isSome)
    (hdodge : (processAttack calcDamage comboFn attacker defender attackType0
        comboLevel r1 r2 id1 id2).damageResult.isDodged = true) :
    (processAttack calcDamage comboFn attacker defender attackType0
        comboLevel r1 r2 id1 id2).updatedDefender.currentHealth
        = defender.currentHealth ∧
    (processAttack calcDamage comboFn attacker defender attackType0
        comboLevel r1 r2 id1 id2).updatedDefender.activeEffects
        = defender.activeEffects ∧
    (processAttack calcDamage comboFn attacker defender attackType0
        comboLevel r1 r2 id1 id2).actualDamage = 0 := by
  obtain ⟨abs0, habs⟩ := Option.isSome_iff_exists.mp ha
  obtain ⟨dbs0, hdbs⟩ := Option.isSome_iff_exists.mp hd
  simp only [processAttack, habs, hdbs] at hdodge ⊢
  rw [processAttackResolve_isDodged] at hdodge
  rw [processAttackResolve, if_pos hdodge]
  exact ⟨rfl, rfl, rfl⟩

/-- A damage function that always reports a dodge. -/
def alwaysDodgeCalc : Creature → Creature → String → ℚ → DamageResult :=
  fun _ _ _ _ =>
    { damage := 7, isDodged := true, isCritical := false,
      effectiveness := "normal", damageType := none, actualDamage := none }

/-- Witness for `processAttack_dodged_conserves` at concrete inputs. -/
theorem processAttack_dodged_conserves_witness :
    (processAttack alwaysDodgeCalc (fun _ => 1) validTarget validTarget
        "physical" 0 0 0 1 2).updatedDefender.currentHealth
        = validTarget.currentHealth ∧
    (processAttack alwaysDodgeCalc (fun _ => 1) validTarget validTarget
        "physical" 0 0 0 1 2).updatedDefender.activeEffects
        = validTarget.activeEffects ∧
    (processAttack alwaysDodgeCalc (fun _ => 1) validTarget validTarget
        "physical" 0 0 0 1 2).actualDamage = 0 :=
  processAttack_dodged_conserves alwaysDodgeCalc (fun _ => 1) validTarget validTarget
    "physical" 0 0 0 1 2 rfl rfl rfl

/-- `Math.round x ≤ n` whenever `x ≤ n` for an integer bound `n`. -/
theorem jsRound_le_int (x : ℚ) (n : ℤ) (h : x ≤ (n : ℚ)) : jsRound x ≤ (n : ℚ) := by
  unfold jsRound
  have hf : ⌊x + 1/2⌋ ≤ n := by
    have h1 : ⌊x + 1/2⌋ ≤ ⌊(n : ℚ) + 1/2⌋ := Int.floor_le_floor (by linarith)
    have h2 : ⌊(n : ℚ) + 1/2⌋ = n := by
      rw [add_comm, Int.floor_add_int]
      norm_num
    omega
  exact_mod_cast hf

/-- `-n ≤ Math.round x` whenever `-n ≤ x` for an integer bound `n`. -/
theorem jsRound_ge_int (x : ℚ) (n : ℤ) (h : (-n : ℚ) ≤ x) : (-n : ℚ) ≤ jsRound x := by
  unfold jsRound
  have hf : -n ≤ ⌊x + 1/2⌋ := by
    have h1 : ⌊(-n : ℚ) + 1/2⌋ ≤ ⌊x + 1/2⌋ := Int.floor_le_floor (by linarith)
    have h2 : ⌊(-n : ℚ) + 1/2⌋ = -n := by
      rw [add_comm, show ((-n : ℚ)) = ((-n : ℤ) : ℚ) by push_cast; ring, Int.floor_add_int]
      norm_num
    omega
  exact_mod_cast hf

/-- `|Math.round x| ≤ n` whenever `|x| ≤ n` for an integer bound `n`. -/
theorem abs_jsRound_le (x : ℚ) (n : ℤ) (h : |x| ≤ (n : ℚ)) : |jsRound x| ≤ (n : ℚ) := by
  rw [abs_le] at h ⊢
  exact ⟨by simpa using jsRound_ge_int x n (by linarith [h.1]), jsRound_le_int x n h.2⟩

/-- The capped-and-scaled per-stat change of the item pipeline is bounded by
`cap · 1.5` in magnitude, for a non-negative multiplier. -/
theorem scaledStat_abs_le (v m cap : ℚ) (hm : 0 ≤ m) (hcap : 0 ≤ cap) :
    |min |v| cap * jsSign v * min m (3/2)| ≤ cap * (3/2) := by
  have ha0 : 0 ≤ min |v| cap := le_min (abs_nonneg v) hcap
  have ha1 : min |v| cap ≤ cap := min_le_right _ _
  have ht0 : 0 ≤ min m (3/2) := le_min hm (by norm_num)
  have ht1 : min m (3/2) ≤ 3/2 := min_le_right _ _
  unfold jsSign
  split
  · rw [abs_of_nonpos (by nlinarith)]
    nlinarith
  · split
    · simpa using by nlinarith
    · rw [abs_of_nonneg (by nlinarith)]
      nlinarith

/-- Every value inserted by `statSet` under a value-bound stays bounded. -/
theorem statSet_bound (P : ℚ → Prop) (acc : StatMap) (k : String) (v : ℚ)
    (hacc : ∀ sv ∈ acc, P sv.2) (hv : P v) :
    ∀ sv ∈ statSet acc k v, P sv.2 := by
  intro sv hsv
  unfold statSet at hsv
  split at hsv
  · obtain ⟨p, hp, hpe⟩ := List.mem_map.mp hsv
    by_cases hk : p.1 = k
    · simp only [hk, if_true] at hpe
      subst hpe; exact hv
    · simp only [hk, if_false] at hpe
      subst hpe; exact hacc p hp
  · rcases List.mem_append.mp hsv with hmem | hmem
    · exact hacc sv hmem
    · simp only [List.mem_singleton] at hmem
      subst hmem; exact hv
/-- Every value of the `reduce`-style scaling fold is bounded, when the
scaling function is. -/
theorem foldl_statSet_bound (P : ℚ → Prop) (f : ℚ → ℚ) (l : List (String × ℚ))
    (acc : StatMap) (hacc : ∀ sv ∈ acc, P sv.2) (hf : ∀ v, P (f v)) :
    ∀ sv ∈ l.foldl (fun a p => statSet a p.1 (f p.2)) acc, P sv.2 := by
  induction l generalizing acc with
  | nil => exact hacc
  | cons hd tl ih =>
    intro sv hsv
    exact ih (statSet acc hd.1 (f hd.2))
      (statSet_bound P acc hd.1 (f hd.2) hacc (hf hd.2)) sv hsv

/-- A present stat value is one of the map's values. -/
theorem statLookup_mem (m : StatMap) (k : String) (v : ℚ)
    (h : statLookup m k = some v) : ∃ p ∈ m, p.2 = v := by
  unfold statLookup at h
  cases hf : m.find? (fun p => p.1 = k) with
  | none => rw [hf] at h; simp at h
  | some p =>
    rw [hf] at h
    simp at h
    exact ⟨p, List.mem_of_find?_eq_some hf, h⟩

/-- The power multiplier is non-negative whenever the caster stats are. -/
theorem calculateEffectPower_nonneg (item : Item) (cs : Option StatMap)
    (difficulty : String) (hcs : ∀ sv ∈ cs.getD [], (0:ℚ) ≤ sv.2) :
    0 ≤ calculateEffectPower item cs difficulty := by
  unfold calculateEffectPower
  have hd : (0:ℚ) <
      (if difficulty = "easy" then (9:ℚ)/10
       else if difficulty = "medium" then 1
       else if difficulty = "hard" then 11/10
       else if difficulty = "expert" then 6/5
       else 1) := by
    repeat' split
    all_goals norm_num
  rcases cs with _ | cs0 <;> rcases hty : item.spell_type with _ | sty <;>
    (try simp only [hty]) <;> (try exact le_of_lt hd)
  split
  · have hrel : (0:ℚ) ≤ orNum (statLookup cs0 sty) 5 := by
      cases hl : statLookup cs0 sty with
      | none => simp [orNum]
      | some v =>
        obtain ⟨p, hp, hpv⟩ := statLookup_mem cs0 sty v hl
        have h0 : (0:ℚ) ≤ v := hpv ▸ hcs p (by simpa using hp)
        by_cases hv : v = 0
        · simp [orNum, hv]
        · simpa [orNum, hv] using h0
    nlinarith
  · exact le_of_lt hd

/-- C9 — confirmed.  For every tool/spell base effect, caster stats
(non-negative values) and difficulty, the scaled effect obeys the hard caps:
each per-stat change is the base value capped at magnitude 10 (tools) or 12
(spells) times the power multiplier capped at 1.5, hence at most 15 / 18 in
magnitude; immediate tool healing is at most 50; spell healing at most 80;
spell self-heal at most 40; and spell direct damage (before the critical and
armor-piercing adjustments) at most 100. -/
theorem item_scaling_hard_caps (te : ToolEffect) (se : SpellEffect)
    (item : Item) (cs : Option StatMap) (difficulty : String)
    (hcs : ∀ sv ∈ cs.getD [], (0:ℚ) ≤ sv.2) :
    (∀ sv ∈ (scaleToolEffect te (calculateEffectPower item cs difficulty)).statChanges,
      |sv.2| ≤ 15) ∧
    (scaleToolEffect te (calculateEffectPower item cs difficulty)).healthChange ≤ 50 ∧
    (scaleSpellEffect se (calculateEffectPower item cs difficulty)).damage ≤ 100 ∧
    (scaleSpellEffect se (calculateEffectPower item cs difficulty)).healing ≤ 80 ∧
    (scaleSpellEffect se (calculateEffectPower item cs difficulty)).selfHeal ≤ 40 ∧
    (∀ sv ∈ (scaleSpellEffect se (calculateEffectPower item cs difficulty)).statChanges,
      |sv.2| ≤ 18) := by
  set m := calculateEffectPower item cs difficulty with hm
  have hm0 : 0 ≤ m := calculateEffectPower_nonneg item cs difficulty hcs
  refine ⟨?_, ?_, ?_, ?_, ?_, ?_⟩
  · simp only [scaleToolEffect]
    cases te.statChanges with
    | none => simp
    | some sc =>
      refine foldl_statSet_bound (fun v => |v| ≤ 15)
        (fun v => jsRound (min |v| 10 * jsSign v * min m (3/2))) sc [] (by simp)
        (fun v => ?_)
      have h1 := scaledStat_abs_le v m 10 hm0 (by norm_num)
      have h2 : |min |v| 10 * jsSign v * min m (3/2)| ≤ ((15:ℤ):ℚ) := by
        push_cast; linarith
      simpa using abs_jsRound_le _ 15 h2
  · simp only [scaleToolEffect]
    split
    · exact jsRound_le_int _ 50 (by exact_mod_cast min_le_right _ 50)
    · norm_num
  · simp only [scaleSpellEffect]
    split
    · exact jsRound_le_int _ 100 (by exact_mod_cast min_le_right _ 100)
    · norm_num
  · simp only [scaleSpellEffect]
    split
    · exact jsRound_le_int _ 80 (by exact_mod_cast min_le_right _ 80)
    · norm_num
  · simp only [scaleSpellEffect]
    split
    · exact jsRound_le_int _ 40 (by exact_mod_cast min_le_right _ 40)
    · norm_num
  · simp only [scaleSpellEffect]
    cases se.statChanges with
    | none => simp
    | some sc =>
      refine foldl_statSet_bound (fun v => |v| ≤ 18)
        (fun v => jsRound (min |v| 12 * jsSign v * min m (3/2))) sc [] (by simp)
        (fun v => ?_)
      have h1 := scaledStat_abs_le v m 12 hm0 (by norm_num)
      have h2 : |min |v| 12 * jsSign v * min m (3/2)| ≤ ((18:ℤ):ℚ) := by
        push_cast; linarith
      simpa using abs_jsRound_le _ 18 h2

/-- Witness for `item_scaling_hard_caps` at the fallback tool/spell effects
and empty caster stats. -/
theorem item_scaling_hard_caps_witness :
    (∀ sv ∈ (scaleToolEffect (getToolEffect none)
        (calculateEffectPower fieldlessItem (some []) "medium")).statChanges,
      |sv.2| ≤ 15) ∧
    (scaleToolEffect (getToolEffect none)
        (calculateEffectPower fieldlessItem (some []) "medium")).healthChange ≤ 50 ∧
    (scaleSpellEffect (getSpellEffect none 5)
        (calculateEffectPower fieldlessItem (some []) "medium")).damage ≤ 100 ∧
    (scaleSpellEffect (getSpellEffect none 5)
        (calculateEffectPower fieldlessItem (some []) "medium")).healing ≤ 80 ∧
    (scaleSpellEffect (getSpellEffect none 5)
        (calculateEffectPower fieldlessItem (some []) "medium")).selfHeal ≤ 40 ∧
    (∀ sv ∈ (scaleSpellEffect (getSpellEffect none 5)
        (calculateEffectPower fieldlessItem (some []) "medium")).statChanges,
      |sv.2| ≤ 18) :=
  item_scaling_hard_caps (getToolEffect none) (getSpellEffect none 5)
    fieldlessItem (some []) "medium" (by simp)

/-- Every row of the tool base-effect table carries a duration. -/
theorem baseToolEffect_duration_isSome (t : String) :
    (baseToolEffect t).duration.isSome := by
  unfold baseToolEffect
  repeat' split
  all_goals rfl

/-- Every branch of the valid-tool body yields a defined duration. -/
theorem getToolEffectValid_duration_isSome (effect type : String) :
    (getToolEffectValid effect type).duration.isSome := by
  unfold getToolEffectValid
  repeat' split
  all_goals first
    | rfl
    | exact baseToolEffect_duration_isSome type

/-- Every row of the spell base-effect table carries a duration. -/
theorem baseSpellEffect_duration_isSome (t : String) (mp : ℚ) :
    (baseSpellEffect t mp).duration.isSome := by
  unfold baseSpellEffect
  repeat' split
  all_goals rfl

/-- Every branch of the valid-spell body yields a defined duration. -/
theorem getSpellEffectValid_duration_isSome (effect type : String) (mg : ℚ) :
    (getSpellEffectValid effect type mg).duration.isSome := by
  unfold getSpellEffectValid
  repeat' split
  all_goals first
    | rfl
    | exact baseSpellEffect_duration_isSome type (1 + mg * (3/20))

/-- C10 — confirmed.  `getToolEffect` and `getSpellEffect` are total and
never return null: for every input — a null item, an item missing its
effect/type fields, or any unknown category/effect tag — each returns an
effect record with a defined numeric `duration` (via the validation
defaults, the special-case branches, and the fallback base effects).  In
the embedding the results are plain records, so the `!toolEffect` /
`!spellEffect` null-check branches of `applyTool`/`applySpell` are dead. -/
theorem getEffect_total_duration (t s : Option Item) (mg : ℚ) :
    (getToolEffect t).duration.isSome ∧ (getSpellEffect s mg).duration.isSome := by
  constructor
  · cases t with
    | none => rfl
    | some t0 =>
      simp only [getToolEffect]
      split_ifs
      all_goals first
        | exact getToolEffectValid_duration_isSome _ _
        | rfl
  · cases s with
    | none => rfl
    | some s0 =>
      simp only [getSpellEffect]
      split_ifs
      all_goals first
        | exact getSpellEffectValid_duration_isSome _ _ mg
        | rfl

/-- Number of (non-null) effects in a list bearing a given id. -/
def idCount (i : ℚ) : List (Option Effect) → ℕ
  | [] => 0
  | oe :: rest => (if oe.map Effect.id = some i then 1 else 0) + idCount i rest

@[simp] theorem idCount_nil (i : ℚ) : idCount i [] = 0 := rfl

@[simp] theorem idCount_cons (i : ℚ) (oe : Option Effect) (l : List (Option Effect)) :
    idCount i (oe :: l) = (if oe.map Effect.id = some i then 1 else 0) + idCount i l := rfl

theorem idCount_append (i : ℚ) (l1 l2 : List (Option Effect)) :
    idCount i (l1 ++ l2) = idCount i l1 + idCount i l2 := by
  induction l1 with
  | nil => simp
  | cons hd tl ih => simp [ih]; omega

/-- Iterated ongoing-effects ticks, one per listed turn value. -/
def tickSeq (jsSin : ℚ → ℚ) (cds : Creature → StatMap) (difficulty : String)
    (ts : List ℚ) (c : Creature) : Creature :=
  ts.foldl (fun c t => applyOngoingEffectsCreature jsSin cds difficulty t c) c

@[simp] theorem tickSeq_nil (jsSin : ℚ → ℚ) (cds : Creature → StatMap)
    (difficulty : String) (c : Creature) : tickSeq jsSin cds difficulty [] c = c := rfl

@[simp] theorem tickSeq_cons (jsSin : ℚ → ℚ) (cds : Creature → StatMap)
    (difficulty : String) (t : ℚ) (ts : List ℚ) (c : Creature) :
    tickSeq jsSin cds difficulty (t :: ts) c =
      tickSeq jsSin cds difficulty ts
        (applyOngoingEffectsCreature jsSin cds difficulty t c) := rfl

/-- The post-tick effect list is the elementwise map through `effResult`
followed by the expiry filter. -/
theorem tick_activeEffects (jsSin : ℚ → ℚ) (cds : Creature → StatMap)
    (difficulty : String) (t : ℚ) (c : Creature) (bs : StatMap)
    (hbs : c.battleStats = some bs) :
    (applyOngoingEffectsCreature jsSin cds difficulty t c).activeEffects =
      (c.activeEffects.map (effResult jsSin t)).filter keepEffect := by
  unfold applyOngoingEffectsCreature
  rw [hbs]
  split
  · rename_i heq
    simp at heq
  · dsimp only
    split <;> rfl

/-- The tick never erases `battleStats`. -/
theorem tick_battleStats_isSome (jsSin : ℚ → ℚ) (cds : Creature → StatMap)
    (difficulty : String) (t : ℚ) (c : Creature)
    (hbs : c.battleStats.isSome) :
    (applyOngoingEffectsCreature jsSin cds difficulty t c).battleStats.isSome := by
  obtain ⟨bs, h⟩ := Option.isSome_iff_exists.mp hbs
  unfold applyOngoingEffectsCreature
  rw [h]
  split
  · rename_i heq
    simp at heq
  · dsimp only
    split <;> simp [h]

/-- `processTimedEffect` rewrites only `statModifications` and
`healthOverTime`; every other field survives. -/
theorem processTimedEffect_shape (jsSin : ℚ → ℚ) (e : Effect) (t s : ℚ) :
    ∃ sm ho, processTimedEffect jsSin e t s =
      { e with statModifications := sm, healthOverTime := ho } := by
  unfold processTimedEffect
  dsimp only
  repeat' split
  all_goals exact ⟨_, _, rfl⟩

/-- A non-charge-typed effect passes one tick as itself with its duration
decremented (ids, type and everything `processTimedEffect` keeps intact). -/
theorem effResult_nonCharge (jsSin : ℚ → ℚ) (t : ℚ) (e : Effect)
    (hty : e.etype ≠ "charge") :
    ∃ e', effResult jsSin t (some e) = some e' ∧ e'.id = e.id ∧
      e'.etype = e.etype ∧ e'.duration = e.duration - 1 := by
  obtain ⟨sm, ho, hpe⟩ := processTimedEffect_shape jsSin e t (orZero e.startTurn)
  have hcc : chargeCheck { e with statModifications := sm, healthOverTime := ho } t
      = ChargeOutcome.nothing := by
    unfold chargeCheck
    cases hc : e.chargeEffect with
    | none => simp [hc]
    | some ce => simp [hc, hty]
  unfold effResult
  dsimp only
  rw [hpe, hcc]
  exact ⟨_, rfl, rfl, rfl, rfl⟩

/-- One tick preserves every effect's id (elementwise). -/
theorem effResult_id (jsSin : ℚ → ℚ) (t : ℚ) (oe : Option Effect) :
    (effResult jsSin t oe).map Effect.id = oe.map Effect.id := by
  cases oe with
  | none => rfl
  | some e =>
    obtain ⟨sm, ho, hpe⟩ := processTimedEffect_shape jsSin e t (orZero e.startTurn)
    unfold effResult
    dsimp only
    rw [hpe]
    rcases chargeCheck { e with statModifications := sm, healthOverTime := ho } t <;> rfl

theorem idCount_map_effResult (jsSin : ℚ → ℚ) (t : ℚ) (i : ℚ)
    (l : List (Option Effect)) :
    idCount i (l.map (effResult jsSin t)) = idCount i l := by
  induction l with
  | nil => simp
  | cons hd tl ih => simp [effResult_id, ih]

theorem idCount_filter_le (i : ℚ) (q : Option Effect → Bool)
    (l : List (Option Effect)) :
    idCount i (l.filter q) ≤ idCount i l := by
  induction l with
  | nil => simp
  | cons hd tl ih =>
    rw [List.filter_cons]
    split
    · simp only [idCount_cons]
      omega
    · simp only [idCount_cons]
      split <;> omega

/-- One tick on a creature carrying a tracked non-charge effect with more
than one turn left: the effect survives with its duration decremented, and
no other effect acquires its id. -/
theorem tick_tracked_step (jsSin : ℚ → ℚ) (cds : Creature → StatMap)
    (difficulty : String) (t : ℚ) (c : Creature) (bs : StatMap)
    (l1 l2 : List (Option Effect)) (e : Effect)
    (hbs : c.battleStats = some bs)
    (hl : c.activeEffects = l1 ++ some e :: l2)
    (hn : idCount e.id (l1 ++ l2) = 0)
    (hty : e.etype ≠ "charge") (hdur : 1 < e.duration) :
    ∃ l1' l2' e',
      (applyOngoingEffectsCreature jsSin cds difficulty t c).activeEffects
        = l1' ++ some e' :: l2' ∧
      e'.id = e.id ∧ e'.etype = e.etype ∧ e'.duration = e.duration - 1 ∧
      idCount e.id (l1' ++ l2') = 0 := by
  obtain ⟨e', he', hid, hety, hdur'⟩ := effResult_nonCharge jsSin t e hty
  have hkeep : keepEffect (some e') = true := by
    simp only [keepEffect, decide_eq_true_eq]
    rw [hdur']
    linarith
  refine ⟨(l1.map (effResult jsSin t)).filter keepEffect,
          (l2.map (effResult jsSin t)).filter keepEffect, e', ?_, hid, hety, hdur', ?_⟩
  · rw [tick_activeEffects jsSin cds difficulty t c bs hbs, hl,
      List.map_append, List.map_cons, he', List.filter_append, List.filter_cons]
    simp [hkeep]
  · rw [idCount_append] at hn ⊢
    have h1 := idCount_filter_le e.id keepEffect (l1.map (effResult jsSin t))
    have h2 := idCount_filter_le e.id keepEffect (l2.map (effResult jsSin t))
    rw [idCount_map_effResult] at h1 h2
    omega

/-- One tick on a creature carrying a tracked non-charge effect on its last
turn: the effect is purged and its id disappears from the list. -/
theorem tick_tracked_drop (jsSin : ℚ → ℚ) (cds : Creature → StatMap)
    (difficulty : String) (t : ℚ) (c : Creature) (bs : StatMap)
    (l1 l2 : List (Option Effect)) (e : Effect)
    (hbs : c.battleStats = some bs)
    (hl : c.activeEffects = l1 ++ some e :: l2)
    (hn : idCount e.id (l1 ++ l2) = 0)
    (hty : e.etype ≠ "charge") (hdur : e.duration ≤ 1) :
    idCount e.id (applyOngoingEffectsCreature jsSin cds difficulty t c).activeEffects
      = 0 := by
  obtain ⟨e', he', hid, hety, hdur'⟩ := effResult_nonCharge jsSin t e hty
  have hkeep : keepEffect (some e') = false := by
    simp only [keepEffect, decide_eq_false_iff_not, not_lt]
    rw [hdur']
    linarith
  rw [tick_activeEffects jsSin cds difficulty t c bs hbs, hl,
    List.map_append, List.map_cons, he', List.filter_append, List.filter_cons]
  simp only [hkeep, if_false, Bool.false_eq_true]
  rw [idCount_append] at hn ⊢
  have h1 := idCount_filter_le e.id keepEffect (l1.map (effResult jsSin t))
  have h2 := idCount_filter_le e.id keepEffect (l2.map (effResult jsSin t))
  rw [idCount_map_effResult] at h1 h2
  omega

/-- An id absent from the effect list can never reappear through a tick. -/
theorem tick_absent (jsSin : ℚ → ℚ) (cds : Creature → StatMap)
    (difficulty : String) (t : ℚ) (c : Creature) (i : ℚ)
    (h : idCount i c.activeEffects = 0) :
    idCount i (applyOngoingEffectsCreature jsSin cds difficulty t c).activeEffects
      = 0 := by
  cases hbs : c.battleStats with
  | none =>
    unfold applyOngoingEffectsCreature
    rw [hbs]
    exact h
  | some bs =>
    rw [tick_activeEffects jsSin cds difficulty t c bs hbs]
    have h1 := idCount_filter_le i keepEffect (c.activeEffects.map (effResult jsSin t))
    rw [idCount_map_effResult] at h1
    omega

/-- An id absent from the effect list stays absent through any tick run. -/
theorem tickSeq_absent (jsSin : ℚ → ℚ) (cds : Creature → StatMap)
    (difficulty : String) (ts : List ℚ) (c : Creature) (i : ℚ)
    (h : idCount i c.activeEffects = 0) :
    idCount i (tickSeq jsSin cds difficulty ts c).activeEffects = 0 := by
  induction ts generalizing c with
  | nil => exact h
  | cons t ts ih =>
    rw [tickSeq_cons]
    exact ih _ (tick_absent jsSin cds difficulty t c i h)

/-- C7 — confirmed.  A non-charge effect created with duration `N ≥ 1` and
attached (with a fresh id) to a creature with battle stats is present in
`activeEffects` during exactly `N` subsequent ongoing-effects ticks — after
`k < N` ticks it is still there with duration `N − k` — and it is absent
from the list once `N` ticks (at arbitrary turn values) have run. -/
theorem effect_expiry (jsSin : ℚ → ℚ) (cds : Creature → StatMap)
    (difficulty : String) (ts : List ℚ) (c : Creature) (bs : StatMap)
    (l1 l2 : List (Option Effect)) (e : Effect) (N : ℕ)
    (hbs : c.battleStats = some bs)
    (hl : c.activeEffects = l1 ++ some e :: l2)
    (hn : idCount e.id (l1 ++ l2) = 0)
    (hty : e.etype ≠ "charge")
    (hdur : e.duration = (N : ℚ)) (hN : 1 ≤ N) :
    (ts.length < N →
      ∃ l1' l2' e',
        (tickSeq jsSin cds difficulty ts c).activeEffects = l1' ++ some e' :: l2' ∧
        e'.id = e.id ∧ e'.etype = e.etype ∧
        e'.duration = (N : ℚ) - (ts.length : ℚ) ∧
        idCount e.id (l1' ++ l2') = 0) ∧
    (N ≤ ts.length →
      idCount e.id (tickSeq jsSin cds difficulty ts c).activeEffects = 0) := by
  induction ts generalizing c bs l1 l2 e N with
  | nil =>
    refine ⟨fun _ => ⟨l1, l2, e, hl, rfl, rfl, by simp [hdur], hn⟩, fun h => ?_⟩
    simp only [List.length_nil] at h
    omega
  | cons t ts ih =>
    rw [tickSeq_cons]
    by_cases hone : N = 1
    · subst hone
      have hdrop := tick_tracked_drop jsSin cds difficulty t c bs l1 l2 e
        hbs hl hn hty (by rw [hdur]; norm_num)
      refine ⟨fun h => ?_, fun _ => tickSeq_absent jsSin cds difficulty ts _ _ hdrop⟩
      simp only [List.length_cons] at h
      omega
    · have hN2 : 2 ≤ N := by omega
      have hNQ : (2:ℚ) ≤ (N:ℚ) := by exact_mod_cast hN2
      obtain ⟨l1', l2', e', hl', hid, hety, hdur', hn'⟩ :=
        tick_tracked_step jsSin cds difficulty t c bs l1 l2 e hbs hl hn hty
          (by rw [hdur]; linarith)
      obtain ⟨bs', hbs'⟩ := Option.isSome_iff_exists.mp
        (tick_battleStats_isSome jsSin cds difficulty t c (by rw [hbs]; rfl))
      have hdN : e'.duration = ((N - 1 : ℕ) : ℚ) := by
        rw [hdur', hdur]
        push_cast [Nat.cast_sub (by omega : 1 ≤ N)]
        ring
      have hn'' : idCount e'.id (l1' ++ l2') = 0 := by rw [hid]; exact hn'
      have hres := ih (applyOngoingEffectsCreature jsSin cds difficulty t c) bs' l1' l2' e'
        (N - 1) hbs' hl' hn'' (by rw [hety]; exact hty) hdN (by omega)
      constructor
      · intro h
        simp only [List.length_cons] at h
        obtain ⟨m1, m2, e'', hm, hmid, hmety, hmdur, hmn⟩ := hres.1 (by omega)
        rw [hid] at hmn
        refine ⟨m1, m2, e'', hm, by rw [hmid, hid], by rw [hmety, hety], ?_, hmn⟩
        rw [hmdur]
        push_cast [Nat.cast_sub (by omega : 1 ≤ N)]
        simp only [List.length_cons]
        push_cast
        ring
      · intro h
        simp only [List.length_cons] at h
        have h2 := hres.2 (by omega)
        rw [hid] at h2
        exact h2

/-- Witness for `effect_expiry`: the duration-2 stat effect is gone after
two ticks. -/
theorem effect_expiry_witness :
    (([(1:ℚ), 2] : List ℚ).length < 2 →
      ∃ l1' l2' e',
        (tickSeq zeroSin constStats50 "medium" [1, 2] clampCexCreature).activeEffects
          = l1' ++ some e' :: l2' ∧
        e'.id = maxHealthDrainEffect.id ∧ e'.etype = maxHealthDrainEffect.etype ∧
        e'.duration = ((2:ℕ) : ℚ) - (([(1:ℚ), 2] : List ℚ).length : ℚ) ∧
        idCount maxHealthDrainEffect.id (l1' ++ l2') = 0) ∧
    (2 ≤ ([(1:ℚ), 2] : List ℚ).length →
      idCount maxHealthDrainEffect.id
        (tickSeq zeroSin constStats50 "medium" [1, 2] clampCexCreature).activeEffects
        = 0) :=
  effect_expiry zeroSin constStats50 "medium" [1, 2] clampCexCreature
    [("maxHealth", 50)] [] [] maxHealthDrainEffect 2 rfl rfl rfl
    (by decide) (by norm_num [maxHealthDrainEffect]) (by norm_num)
